import Mathlib

/-!
Verification development for the react-bootstrap → Material-UI codemod
scripts of this repository.  The JSX / ESTree fragments that the codemods
read and mutate are shallowly embedded below, and each transform pass is
translated function-by-function from its source file:

  * `Deep`  — src/js/bootstrap_mui_deep.js
  * `Uni`   — src/js/bootstrap_mui_claude.js (the "unified" codemod)
  * `RbC`   — src/js/react-bootstrap-to-mui_claude.js
  * `Manus` — src/js/react-bootstrap-to-mui_manus.js
  * `Part1` — src/unnamed/part_001
  * `Gem1`  — src/js/react-bootstrap-to-mui_gemini2.js (first transformer)
  * `Gem2`  — src/js/react-bootstrap-to-mui_gemini2.js (second transformer)

Modelling conventions, used uniformly:
  * A JSX element is `Node.elem name attrs children`; the closing tag always
    carries the same name as the opening tag (every source pass that renames
    an element renames both tags together, so one name field suffices).
  * Plain `Literal` / `StringLiteral` / `NumericLiteral` / `BooleanLiteral`
    attribute values are `AttrValue.lit / numLit / boolLit` — the parser
    flavours (`Literal` vs `StringLiteral` node types) are identified, and a
    guard such as `attr.value.type === 'Literal'` holds exactly of this
    literal family of the matching primitive kind.
  * A `JSXExpressionContainer` wrapping a string / numeric / boolean literal
    is `exprStr / exprNum / exprBool`; one wrapping an object literal of
    style entries is `sxObject`; any other computed expression is
    `exprOpaque`.  A bare attribute (no value) is `noValue`.
  * Writing `attr.value.value = x` on a `JSXExpressionContainer` node sets a
    stray property that the printer never reads, so in the model such a
    write leaves the serialized attribute unchanged.
  * Programs are `Program`: the import section, the names bound by local
    function / class / function-valued variable declarations, and the list
    of JSX roots in the file body.
-/

/-- Style entry values placed in an `sx` object: string or numeric literals. -/
inductive SxVal
  | str (s : String)
  | num (n : Int)
deriving DecidableEq, Repr

/-- Name of a JSX element: a plain identifier or a member expression. -/
inductive JsxName
  | ident (name : String)
  | member (obj prop : String)
deriving DecidableEq, Repr

/-- Value of a JSX attribute, as the codemods discriminate it. -/
inductive AttrValue
  | lit (s : String)
  | numLit (n : Int)
  | boolLit (b : Bool)
  | exprStr (s : String)
  | exprNum (n : Int)
  | exprBool (b : Bool)
  | sxObject (props : List (String × SxVal))
  | exprOpaque (src : String)
  | nanLit
  | litOf (v : AttrValue)
  | noValue
deriving DecidableEq, Repr

/-- A named JSX attribute. -/
structure JsxAttr where
  name : String
  value : AttrValue
deriving DecidableEq, Repr

/-- An entry of an element's attribute list: a `JSXAttribute` or a spread. -/
inductive AttrEntry
  | attr (a : JsxAttr)
  | spread (src : String)
deriving DecidableEq, Repr

/-- A JSX tree node: an element, a text child, or an expression child. -/
inductive Node
  | elem (name : JsxName) (attrs : List AttrEntry) (children : List Node)
  | text (s : String)
  | exprChild (src : String)
deriving Repr

mutual
def nodeBEq : Node → Node → Bool
  | .elem n a cs, .elem n' a' cs' => n = n' && a = a' && nodeListBEq cs cs'
  | .text s, .text s' => s = s'
  | .exprChild s, .exprChild s' => s = s'
  | _, _ => false
def nodeListBEq : List Node → List Node → Bool
  | [], [] => true
  | c :: cs, d :: ds => nodeBEq c d && nodeListBEq cs ds
  | _, _ => false
end

mutual
theorem nodeBEq_iff : ∀ a b : Node, nodeBEq a b = true ↔ a = b
  | .elem n a cs, .elem n' a' cs' => by
    simp [nodeBEq, nodeListBEq_iff cs cs']
    tauto
  | .text s, .text s' => by simp [nodeBEq]
  | .exprChild s, .exprChild s' => by simp [nodeBEq]
  | .elem _ _ _, .text _ => by simp [nodeBEq]
  | .elem _ _ _, .exprChild _ => by simp [nodeBEq]
  | .text _, .elem _ _ _ => by simp [nodeBEq]
  | .text _, .exprChild _ => by simp [nodeBEq]
  | .exprChild _, .elem _ _ _ => by simp [nodeBEq]
  | .exprChild _, .text _ => by simp [nodeBEq]
theorem nodeListBEq_iff : ∀ a b : List Node, nodeListBEq a b = true ↔ a = b
  | [], [] => by simp [nodeListBEq]
  | c :: cs, d :: ds => by
    simp [nodeListBEq, nodeBEq_iff c d, nodeListBEq_iff cs ds]
  | [], _ :: _ => by simp [nodeListBEq]
  | _ :: _, [] => by simp [nodeListBEq]
end

instance : DecidableEq Node := fun a b =>
  decidable_of_iff (nodeBEq a b = true) (nodeBEq_iff a b)

/-- An import specifier: named (`ImportSpecifier` with imported and local
name), default, or namespace. -/
inductive ImportSpec
  | named (imported localName : String)
  | defaultSpec (localName : String)
  | nsSpec (localName : String)
deriving DecidableEq, Repr

/-- An import declaration: module source string plus its specifiers. -/
structure ImportDecl where
  source : String
  specifiers : List ImportSpec
deriving DecidableEq, Repr

/-- A source file as the codemods observe it: its import section, the names
bound by local function / class / function-valued variable declarations, and
its JSX roots. -/
structure Program where
  imports : List ImportDecl
  localDecls : List String
  body : List Node
deriving DecidableEq, Repr

/-- First-match association lookup, mirroring `find` over JS object entries
and `map[key]` access on the rule tables. -/
def lookupKey {α : Type} (l : List (String × α)) (k : String) : Option α :=
  match l with
  | [] => none
  | (k', v) :: rest => if k' = k then some v else lookupKey rest k

/-- JS `Object.assign` of one entry: an existing key is updated in place, a
new key is appended. -/
def objAssign1 (acc : List (String × SxVal)) (kv : String × SxVal) :
    List (String × SxVal) :=
  if (lookupKey acc kv.1).isSome then
    acc.map (fun p => if p.1 = kv.1 then kv else p)
  else acc ++ [kv]

/-- JS `Object.assign(acc, obj)` over all entries of `obj`. -/
def objAssign (acc obj : List (String × SxVal)) : List (String × SxVal) :=
  obj.foldl objAssign1 acc

/-- Merge loop shared verbatim by `Deep.mergeSxAttribute`,
`Uni.mergeSxProp` and `Gem2.mergeSxAttribute`: each new entry is pushed onto
the existing property list only when no property with that key is already
present (the membership test reruns against the list grown so far). -/
def jsObjectFill (props news : List (String × SxVal)) :
    List (String × SxVal) :=
  news.foldl
    (fun acc kv => if (lookupKey acc kv.1).isSome then acc else acc ++ [kv])
    props

/-- First `JSXAttribute` named `n` in an attribute list (spreads have no
name and never match), mirroring `attrs.find(a => a.name?.name === n)`. -/
def findAttr (attrs : List AttrEntry) (n : String) : Option JsxAttr :=
  match attrs with
  | [] => none
  | .attr a :: rest => if a.name = n then some a else findAttr rest n
  | .spread _ :: rest => findAttr rest n

/-- Replace the value of the first attribute named `n` (the codemods mutate
the node returned by `find`). -/
def setFirstAttrValue (attrs : List AttrEntry) (n : String) (v : AttrValue) :
    List AttrEntry :=
  match attrs with
  | [] => []
  | .attr a :: rest =>
    if a.name = n then .attr ⟨a.name, v⟩ :: rest
    else .attr a :: setFirstAttrValue rest n v
  | .spread s :: rest => .spread s :: setFirstAttrValue rest n v

/-- Remove every `JSXAttribute` named `n`, keeping spreads, mirroring
`attrs.filter(a => a.name?.name !== n)`. -/
def removeAttr (attrs : List AttrEntry) (n : String) : List AttrEntry :=
  attrs.filter fun e =>
    match e with
    | .attr a => a.name ≠ n
    | .spread _ => true

/-- Occurrence of `pat` anywhere in a character list. -/
def hasSub (pat : List Char) : List Char → Bool
  | [] => pat.isEmpty
  | c :: rest => pat.isPrefixOf (c :: rest) || hasSub pat rest

/-- Substring test, used for `source.includes('bootstrap')`-style checks. -/
def containsSub (s pat : String) : Bool := hasSub pat.data s.data

/-- Split a character list on every occurrence of a separator character,
like the JS `split(' ')` (adjacent separators yield empty pieces). -/
def chSplit (sep : Char) : List Char → List (List Char)
  | [] => [[]]
  | c :: rest =>
    let r := chSplit sep rest
    if c = sep then [] :: r
    else
      match r with
      | [] => [[c]]
      | piece :: more => (c :: piece) :: more

/-- JS `String.prototype.split(' ')` producing strings. -/
def jsSplitSpace (s : String) : List String :=
  (chSplit ' ' s.data).map String.mk

/-- JS `String.prototype.trim()`. -/
def jsTrim (s : String) : String :=
  String.mk (((s.data.dropWhile Char.isWhitespace).reverse.dropWhile
    Char.isWhitespace).reverse)

/-- Join with single spaces, the `join(' ')` of the codemods. -/
def joinSpace (l : List String) : String :=
  String.mk (List.intercalate [' '] (l.map String.data))

example : containsSub "react-bootstrap" "bootstrap" = true := by decide
example : containsSub "@mui/material/Button" "bootstrap" = false := by decide
example : jsSplitSpace "a  b" = ["a", "", "b"] := by decide
example : jsTrim "  a b " = "a b" := by decide
example : joinSpace ["a", "b"] = "a b" := by decide

namespace Deep

/-!
Embedding of src/js/bootstrap_mui_deep.js.  The script runs seven passes:
bootstrap-import removal, the `COMPONENT_MAP` conversion pass, the
`SUBCOMPONENT_MAP` conversion pass, the special `Col` / `Alert` /
`Container` passes, and finally MUI import injection.  Notes on fidelity:

  * Writing `attr.value.value = mapped` on a `JSXExpressionContainer`
    (possible in the propMap loop when the value was read from
    `attr.value.expression.value`) sets a property the printer never reads,
    so the model leaves such attributes unchanged.
  * Only a nonempty string literal can select an entry of the string-keyed
    rule tables (`propMap`, `severityMap`): numeric and boolean values never
    coincide with the tables' keys, `0`, `false` and the empty string are
    falsy and fail the `value && map[value]` guard.
  * Line 320 of the source (the expression-container branch of
    `convertClassNameToSx`) reads `filter(c => c.trim')` in the checked-in
    file, an obvious transcription slip for `filter(c => c.trim())`, which
    is what the model uses (it matches the sibling branch on line 317).
  * A non-string `className` literal (for example a numeric literal) would
    make the script throw on `classValue.split`; the model maps such values
    to the empty class list and no claim below exercises them.
-/

/-- Default attribute value inside a `COMPONENT_MAP` entry's `props`. -/
inductive Dflt2
  | bool (b : Bool)
  | num (n : Int)
  | str (s : String)
deriving DecidableEq, Repr

/-- One `COMPONENT_MAP` entry (`name`, `import`, optional `propMap`,
`severityMap`, `props`, `role`). -/
structure Cfg2 where
  targetName : String
  importPath : String
  propMap : List (String × List (String × String)) := []
  severityMap : List (String × String) := []
  defaults : List (String × Dflt2) := []
  role : Option String := none
deriving Repr

/-- Default attribute value inside a `SUBCOMPONENT_MAP` entry's `props`. -/
inductive Dflt3
  | bool (b : Bool)
  | str (s : String)
  | sx (obj : List (String × SxVal))
deriving DecidableEq, Repr

/-- One `SUBCOMPONENT_MAP` entry. -/
structure Cfg3 where
  targetName : String
  importPath : String
  defaults : List (String × Dflt3) := []
deriving Repr

/-- The `COMPONENT_MAP` table (source lines 17-108), in entry order. -/
def COMPONENT_MAP : List (String × Cfg2) := [
  ("Button",
    { targetName := "Button", importPath := "@mui/material/Button",
      propMap := [
        ("variant", [
          ("primary", "contained"), ("secondary", "outlined"),
          ("success", "contained"), ("danger", "contained"),
          ("warning", "contained"), ("info", "contained"),
          ("light", "outlined"), ("dark", "contained"), ("link", "text")]),
        ("color", [
          ("primary", "primary"), ("secondary", "secondary"),
          ("success", "success"), ("danger", "error"),
          ("warning", "warning"), ("info", "info"),
          ("light", "default"), ("dark", "primary"), ("link", "primary")]),
        ("size", [("sm", "small"), ("lg", "large")])] }),
  ("Alert",
    { targetName := "Alert", importPath := "@mui/material/Alert",
      severityMap := [
        ("primary", "info"), ("secondary", "info"), ("success", "success"),
        ("danger", "error"), ("warning", "warning"), ("info", "info"),
        ("light", "info"), ("dark", "info")] }),
  ("Container",
    { targetName := "Container", importPath := "@mui/material/Container" }),
  ("Card", { targetName := "Card", importPath := "@mui/material/Card" }),
  ("Badge", { targetName := "Badge", importPath := "@mui/material/Badge" }),
  ("Spinner",
    { targetName := "CircularProgress",
      importPath := "@mui/material/CircularProgress" }),
  ("Row",
    { targetName := "Grid", importPath := "@mui/material/Grid",
      defaults := [("container", .bool true), ("spacing", .num 2)] }),
  ("Col",
    { targetName := "Grid", importPath := "@mui/material/Grid",
      defaults := [("item", .bool true), ("xs", .num 12)] }),
  ("Navbar", { targetName := "AppBar", importPath := "@mui/material/AppBar" }),
  ("Nav", { targetName := "Toolbar", importPath := "@mui/material/Toolbar" }),
  ("Form",
    { targetName := "Box", importPath := "@mui/material/Box",
      role := some "form" }),
  ("FormControl",
    { targetName := "TextField", importPath := "@mui/material/TextField" }),
  ("FormLabel",
    { targetName := "InputLabel", importPath := "@mui/material/InputLabel" }),
  ("Form.Check",
    { targetName := "Checkbox", importPath := "@mui/material/Checkbox" }),
  ("Modal", { targetName := "Dialog", importPath := "@mui/material/Dialog" })]

/-- The `SUBCOMPONENT_MAP` table (source lines 111-139), in entry order. -/
def SUBCOMPONENT_MAP : List (String × Cfg3) := [
  ("Card.Body",
    { targetName := "CardContent", importPath := "@mui/material/CardContent" }),
  ("Card.Header",
    { targetName := "CardHeader", importPath := "@mui/material/CardHeader" }),
  ("Card.Footer", { targetName := "Box", importPath := "@mui/material/Box" }),
  ("Card.Title",
    { targetName := "Typography", importPath := "@mui/material/Typography",
      defaults := [("variant", .str "h5"), ("component", .str "div")] }),
  ("Card.Text",
    { targetName := "Typography", importPath := "@mui/material/Typography",
      defaults := [("variant", .str "body2"),
                   ("color", .str "text.secondary")] }),
  ("Modal.Header",
    { targetName := "DialogTitle", importPath := "@mui/material/DialogTitle" }),
  ("Modal.Body",
    { targetName := "DialogContent",
      importPath := "@mui/material/DialogContent" }),
  ("Modal.Footer",
    { targetName := "DialogActions",
      importPath := "@mui/material/DialogActions" }),
  ("Modal.Title",
    { targetName := "DialogTitle", importPath := "@mui/material/DialogTitle" }),
  ("Navbar.Brand",
    { targetName := "Typography", importPath := "@mui/material/Typography",
      defaults := [("variant", .str "h6"), ("component", .str "div"),
                   ("sx", .sx [("flexGrow", SxVal.num 1)])] })]

/-- The `CLASSNAME_TO_SX` table (source lines 142-227), in entry order. -/
def CLASSNAME_TO_SX : List (String × List (String × SxVal)) := [
  ("m-0", [("m", SxVal.num 0)]),
  ("m-1", [("m", SxVal.num 1)]),
  ("m-2", [("m", SxVal.num 2)]),
  ("m-3", [("m", SxVal.num 3)]),
  ("m-4", [("m", SxVal.num 4)]),
  ("m-5", [("m", SxVal.num 5)]),
  ("mt-0", [("mt", SxVal.num 0)]),
  ("mt-1", [("mt", SxVal.num 1)]),
  ("mt-2", [("mt", SxVal.num 2)]),
  ("mt-3", [("mt", SxVal.num 3)]),
  ("mt-4", [("mt", SxVal.num 4)]),
  ("mt-5", [("mt", SxVal.num 5)]),
  ("mb-0", [("mb", SxVal.num 0)]),
  ("mb-1", [("mb", SxVal.num 1)]),
  ("mb-2", [("mb", SxVal.num 2)]),
  ("mb-3", [("mb", SxVal.num 3)]),
  ("mb-4", [("mb", SxVal.num 4)]),
  ("mb-5", [("mb", SxVal.num 5)]),
  ("ml-0", [("ml", SxVal.num 0)]),
  ("ml-1", [("ml", SxVal.num 1)]),
  ("ml-2", [("ml", SxVal.num 2)]),
  ("ml-3", [("ml", SxVal.num 3)]),
  ("ml-4", [("ml", SxVal.num 4)]),
  ("ml-5", [("ml", SxVal.num 5)]),
  ("mr-0", [("mr", SxVal.num 0)]),
  ("mr-1", [("mr", SxVal.num 1)]),
  ("mr-2", [("mr", SxVal.num 2)]),
  ("mr-3", [("mr", SxVal.num 3)]),
  ("mr-4", [("mr", SxVal.num 4)]),
  ("mr-5", [("mr", SxVal.num 5)]),
  ("mx-0", [("mx", SxVal.num 0)]),
  ("mx-1", [("mx", SxVal.num 1)]),
  ("mx-2", [("mx", SxVal.num 2)]),
  ("mx-3", [("mx", SxVal.num 3)]),
  ("mx-4", [("mx", SxVal.num 4)]),
  ("mx-5", [("mx", SxVal.num 5)]),
  ("my-0", [("my", SxVal.num 0)]),
  ("my-1", [("my", SxVal.num 1)]),
  ("my-2", [("my", SxVal.num 2)]),
  ("my-3", [("my", SxVal.num 3)]),
  ("my-4", [("my", SxVal.num 4)]),
  ("my-5", [("my", SxVal.num 5)]),
  ("p-0", [("p", SxVal.num 0)]),
  ("p-1", [("p", SxVal.num 1)]),
  ("p-2", [("p", SxVal.num 2)]),
  ("p-3", [("p", SxVal.num 3)]),
  ("p-4", [("p", SxVal.num 4)]),
  ("p-5", [("p", SxVal.num 5)]),
  ("pt-0", [("pt", SxVal.num 0)]),
  ("pt-1", [("pt", SxVal.num 1)]),
  ("pt-2", [("pt", SxVal.num 2)]),
  ("pt-3", [("pt", SxVal.num 3)]),
  ("pt-4", [("pt", SxVal.num 4)]),
  ("pt-5", [("pt", SxVal.num 5)]),
  ("pb-0", [("pb", SxVal.num 0)]),
  ("pb-1", [("pb", SxVal.num 1)]),
  ("pb-2", [("pb", SxVal.num 2)]),
  ("pb-3", [("pb", SxVal.num 3)]),
  ("pb-4", [("pb", SxVal.num 4)]),
  ("pb-5", [("pb", SxVal.num 5)]),
  ("pl-0", [("pl", SxVal.num 0)]),
  ("pl-1", [("pl", SxVal.num 1)]),
  ("pl-2", [("pl", SxVal.num 2)]),
  ("pl-3", [("pl", SxVal.num 3)]),
  ("pl-4", [("pl", SxVal.num 4)]),
  ("pl-5", [("pl", SxVal.num 5)]),
  ("pr-0", [("pr", SxVal.num 0)]),
  ("pr-1", [("pr", SxVal.num 1)]),
  ("pr-2", [("pr", SxVal.num 2)]),
  ("pr-3", [("pr", SxVal.num 3)]),
  ("pr-4", [("pr", SxVal.num 4)]),
  ("pr-5", [("pr", SxVal.num 5)]),
  ("px-0", [("px", SxVal.num 0)]),
  ("px-1", [("px", SxVal.num 1)]),
  ("px-2", [("px", SxVal.num 2)]),
  ("px-3", [("px", SxVal.num 3)]),
  ("px-4", [("px", SxVal.num 4)]),
  ("px-5", [("px", SxVal.num 5)]),
  ("py-0", [("py", SxVal.num 0)]),
  ("py-1", [("py", SxVal.num 1)]),
  ("py-2", [("py", SxVal.num 2)]),
  ("py-3", [("py", SxVal.num 3)]),
  ("py-4", [("py", SxVal.num 4)]),
  ("py-5", [("py", SxVal.num 5)]),
  ("d-flex", [("display", SxVal.str "flex")]),
  ("d-none", [("display", SxVal.str "none")]),
  ("d-block", [("display", SxVal.str "block")]),
  ("d-inline", [("display", SxVal.str "inline")]),
  ("d-inline-block", [("display", SxVal.str "inline-block")]),
  ("justify-content-start", [("justifyContent", SxVal.str "flex-start")]),
  ("justify-content-end", [("justifyContent", SxVal.str "flex-end")]),
  ("justify-content-center", [("justifyContent", SxVal.str "center")]),
  ("justify-content-between", [("justifyContent", SxVal.str "space-between")]),
  ("justify-content-around", [("justifyContent", SxVal.str "space-around")]),
  ("align-items-start", [("alignItems", SxVal.str "flex-start")]),
  ("align-items-end", [("alignItems", SxVal.str "flex-end")]),
  ("align-items-center", [("alignItems", SxVal.str "center")]),
  ("align-items-baseline", [("alignItems", SxVal.str "baseline")]),
  ("align-items-stretch", [("alignItems", SxVal.str "stretch")]),
  ("flex-column", [("flexDirection", SxVal.str "column")]),
  ("flex-row", [("flexDirection", SxVal.str "row")]),
  ("flex-wrap", [("flexWrap", SxVal.str "wrap")]),
  ("flex-nowrap", [("flexWrap", SxVal.str "nowrap")]),
  ("flex-fill", [("flex", SxVal.str "1 1 auto")]),
  ("text-start", [("textAlign", SxVal.str "left")]),
  ("text-center", [("textAlign", SxVal.str "center")]),
  ("text-end", [("textAlign", SxVal.str "right")]),
  ("text-justify", [("textAlign", SxVal.str "justify")]),
  ("text-uppercase", [("textTransform", SxVal.str "uppercase")]),
  ("text-lowercase", [("textTransform", SxVal.str "lowercase")]),
  ("text-capitalize", [("textTransform", SxVal.str "capitalize")]),
  ("fw-bold", [("fontWeight", SxVal.str "bold")]),
  ("fw-bolder", [("fontWeight", SxVal.str "bolder")]),
  ("fw-normal", [("fontWeight", SxVal.str "normal")]),
  ("fw-light", [("fontWeight", SxVal.str "light")]),
  ("fst-italic", [("fontStyle", SxVal.str "italic")]),
  ("text-primary", [("color", SxVal.str "primary.main")]),
  ("text-secondary", [("color", SxVal.str "secondary.main")]),
  ("text-success", [("color", SxVal.str "success.main")]),
  ("text-danger", [("color", SxVal.str "error.main")]),
  ("text-warning", [("color", SxVal.str "warning.main")]),
  ("text-info", [("color", SxVal.str "info.main")]),
  ("text-muted", [("color", SxVal.str "text.secondary")]),
  ("w-100", [("width", SxVal.str "100%")]),
  ("h-100", [("height", SxVal.str "100%")]),
  ("vw-100", [("width", SxVal.str "100vw")]),
  ("vh-100", [("height", SxVal.str "100vh")]),
  ("position-relative", [("position", SxVal.str "relative")]),
  ("position-absolute", [("position", SxVal.str "absolute")]),
  ("position-fixed", [("position", SxVal.str "fixed")]),
  ("position-sticky", [("position", SxVal.str "sticky")]),
  ("border", [("border", SxVal.str "1px solid")]),
  ("border-0", [("border", SxVal.num 0)]),
  ("rounded", [("borderRadius", SxVal.num 1)]),
  ("rounded-0", [("borderRadius", SxVal.num 0)]),
  ("bg-primary", [("backgroundColor", SxVal.str "primary.main")]),
  ("bg-secondary", [("backgroundColor", SxVal.str "secondary.main")]),
  ("bg-success", [("backgroundColor", SxVal.str "success.main")]),
  ("bg-danger", [("backgroundColor", SxVal.str "error.main")]),
  ("bg-warning", [("backgroundColor", SxVal.str "warning.main")]),
  ("bg-info", [("backgroundColor", SxVal.str "info.main")]),
  ("bg-light", [("backgroundColor", SxVal.str "grey.100")]),
  ("bg-dark", [("backgroundColor", SxVal.str "grey.900")])
]

/-- Lookup of one class token in `CLASSNAME_TO_SX`. -/
def lookupSx (c : String) : Option (List (String × SxVal)) :=
  lookupKey CLASSNAME_TO_SX c

/-- The `mergeSxAttribute` helper (source lines 265-302): append a fresh
`sx` attribute when none exists; when the existing `sx` holds an object
literal, push only the entries whose key is not yet present; otherwise
leave the attribute list unchanged. -/
def mergeSxAttribute (attrs : List AttrEntry)
    (news : List (String × SxVal)) : List AttrEntry :=
  match findAttr attrs "sx" with
  | none => attrs ++ [.attr ⟨"sx", .sxObject news⟩]
  | some a =>
    match a.value with
    | .sxObject props =>
      setFirstAttrValue attrs "sx" (.sxObject (jsObjectFill props news))
    | _ => attrs

/-- Attribute values that can select an entry of the string-keyed rule
tables (see the fidelity notes above). -/
def extractStr : AttrValue → Option String
  | .lit s => if s = "" then none else some s
  | .exprStr s => if s = "" then none else some s
  | _ => none

/-- The propMap application of the conversion pass (source lines 378-387):
an attribute whose name is ruled and whose literal value is a key of the
rule's enumeration gets its value overwritten in place; anything else is
left as it is. -/
def applyPropRule (pm : List (String × List (String × String))) :
    AttrEntry → AttrEntry
  | .attr a =>
    (match lookupKey pm a.name with
     | some m =>
       if a.value = .noValue then .attr a
       else
         match extractStr a.value with
         | some s =>
           (match lookupKey m s with
            | some tgt =>
              (match a.value with
               | .lit _ => .attr ⟨a.name, .lit tgt⟩
               | _ => .attr a)
            | none => .attr a)
         | none => .attr a
     | none => .attr a)
  | e => e

/-- Default props of a `COMPONENT_MAP` entry (source lines 390-405):
booleans become bare attributes, strings and numbers become
expression-container literals, appended in entry order. -/
def applyDefaults2 (attrs : List AttrEntry)
    (ds : List (String × Dflt2)) : List AttrEntry :=
  ds.foldl
    (fun acc kd =>
      acc ++ [.attr ⟨kd.1,
        match kd.2 with
        | .bool _ => .noValue
        | .str s => .exprStr s
        | .num n => .exprNum n⟩])
    attrs

/-- Final `className` update of `convertClassNameToSx` (source lines
341-348): rewrite the attribute to the joined remaining tokens, or remove
it when none remain. -/
def classNameUpdate (attrs1 : List AttrEntry) (remaining : List String) :
    List AttrEntry :=
  if remaining.isEmpty then removeAttr attrs1 "className"
  else setFirstAttrValue attrs1 "className" (.lit (joinSpace remaining))

/-- The `convertClassNameToSx` helper (source lines 305-349).  Returns the
rewritten attribute list and whether the pass reported a change (`true`
exactly when at least one class token matched a style rule). -/
def convertClassNameToSx (attrs : List AttrEntry) : List AttrEntry × Bool :=
  match findAttr attrs "className" with
  | none => (attrs, false)
  | some ca =>
    let classes : List String :=
      match ca.value with
      | .lit s => (jsSplitSpace s).filter (fun c => jsTrim c ≠ "")
      | .exprStr s => (jsSplitSpace s).filter (fun c => jsTrim c ≠ "")
      | _ => []
    if classes.isEmpty then (attrs, false)
    else
      let sxProps := classes.foldl
        (fun acc c =>
          match lookupSx c with
          | some obj => objAssign acc obj
          | none => acc) []
      let remaining := classes.filter (fun c => (lookupSx c).isNone)
      let attrs1 :=
        if sxProps.isEmpty then attrs else mergeSxAttribute attrs sxProps
      (classNameUpdate attrs1 remaining, !sxProps.isEmpty)

end Deep

mutual
/-- Elementwise tree rewriter: apply `f` to the opening tag and attribute
list of every element in document order (children handled recursively, the
way a jscodeshift `find(...).forEach` visits every collected path).  Also
reports whether `f` flagged a change anywhere. -/
def mapElems (f : JsxName → List AttrEntry → JsxName × List AttrEntry × Bool) :
    Node → Node × Bool
  | .elem n attrs cs =>
    let r := mapElemsList f cs
    let fr := f n attrs
    (.elem fr.1 fr.2.1 r.1, fr.2.2 || r.2)
  | .text s => (.text s, false)
  | .exprChild s => (.exprChild s, false)
/-- List version of `mapElems`. -/
def mapElemsList
    (f : JsxName → List AttrEntry → JsxName × List AttrEntry × Bool) :
    List Node → List Node × Bool
  | [] => ([], false)
  | c :: cs =>
    let r := mapElems f c
    let rs := mapElemsList f cs
    (r.1 :: rs.1, r.2 || rs.2)
end

namespace Deep

/-- Rewrite of one matched element of the `COMPONENT_MAP` conversion pass
(source lines 368-410): rename, apply the propMap, append default props,
convert `className` to `sx`. -/
def applyCfg2 (cfg : Cfg2) (attrs : List AttrEntry) : List AttrEntry :=
  let attrs1 :=
    if cfg.propMap.isEmpty then attrs
    else attrs.map (applyPropRule cfg.propMap)
  let attrs2 := applyDefaults2 attrs1 cfg.defaults
  (convertClassNameToSx attrs2).1

/-- The `COMPONENT_MAP` conversion pass for one table entry (source lines
365-412): every element whose opening tag is the plain identifier `key` is
rewritten and flags a change. -/
def pass2One (key : String) (cfg : Cfg2) (b : List Node) : List Node × Bool :=
  mapElemsList
    (fun n attrs =>
      if n = .ident key then (.ident cfg.targetName, applyCfg2 cfg attrs, true)
      else (n, attrs, false))
    b

/-- The whole `COMPONENT_MAP` conversion pass, table entries in order. -/
def pass2 (b : List Node) : List Node × Bool :=
  COMPONENT_MAP.foldl
    (fun acc kc =>
      let r := pass2One kc.1 kc.2 acc.1
      (r.1, acc.2 || r.2))
    (b, false)

/-- Default props of a `SUBCOMPONENT_MAP` entry (source lines 436-451):
objects are merged into `sx`, booleans become bare attributes, strings
become plain string-literal attributes. -/
def applyDefaults3 (attrs : List AttrEntry)
    (ds : List (String × Dflt3)) : List AttrEntry :=
  ds.foldl
    (fun acc kd =>
      match kd.2 with
      | .sx obj => mergeSxAttribute acc obj
      | .bool _ => acc ++ [.attr ⟨kd.1, .noValue⟩]
      | .str s => acc ++ [.attr ⟨kd.1, .lit s⟩])
    attrs

/-- Rewrite of one matched element of the `SUBCOMPONENT_MAP` pass (source
lines 426-456). -/
def applyCfg3 (cfg : Cfg3) (attrs : List AttrEntry) : List AttrEntry :=
  (convertClassNameToSx (applyDefaults3 attrs cfg.defaults)).1

/-- The `SUBCOMPONENT_MAP` pass for one table entry (source lines 415-458):
every element addressed as `parent.child` is renamed to a plain identifier
and rewritten. -/
def pass3One (parent child : String) (cfg : Cfg3) (b : List Node) :
    List Node × Bool :=
  mapElemsList
    (fun n attrs =>
      if n = .member parent child then
        (.ident cfg.targetName, applyCfg3 cfg attrs, true)
      else (n, attrs, false))
    b

/-- Split a dotted `SUBCOMPONENT_MAP` key into parent and child (the source
does `bootstrapName.split('.')`). -/
def splitDotKey (k : String) : String × String :=
  match (chSplit '.' k.data).map String.mk with
  | p :: c :: _ => (p, c)
  | _ => (k, "")

/-- The whole `SUBCOMPONENT_MAP` pass, table entries in order. -/
def pass3 (b : List Node) : List Node × Bool :=
  SUBCOMPONENT_MAP.foldl
    (fun acc kc =>
      let pc := splitDotKey kc.1
      let r := pass3One pc.1 pc.2 kc.2 acc.1
      (r.1, acc.2 || r.2))
    (b, false)

/-- Digits-to-the-end parser for the second capture of
`^col-(xs|sm|md|lg|xl)?-?(\d+)$`. -/
def digitsToEnd : List Char → Option Nat
  | [] => none
  | cs =>
    if cs.all Char.isDigit then
      some (cs.foldl (fun acc c => acc * 10 + (c.toNat - 48)) 0)
    else none

/-- Match of one class token against `^col-(xs|sm|md|lg|xl)?-?(\d+)$`
(source line 476), returning breakpoint capture (defaulted to `xs` by the
caller) and column size. -/
def colMatch (tok : String) : Option (Option String × Nat) :=
  match tok.data with
  | 'c' :: 'o' :: 'l' :: '-' :: rest =>
    let tryTail : List Char → Option Nat := fun cs =>
      match cs with
      | '-' :: ds => digitsToEnd ds
      | ds => digitsToEnd ds
    match ["xs", "sm", "md", "lg", "xl"].find?
        (fun bp => bp.data.isPrefixOf rest) with
    | some bp =>
      (match tryTail (rest.drop 2) with
       | some nn => some (some bp, nn)
       | none => none)
    | none =>
      (match tryTail rest with
       | some nn => some (none, nn)
       | none => none)
  | _ => none

/-- The special `Col` pass (source lines 461-504): on a `Col` element whose
`className` holds a `col-*` token, push the decoded breakpoint prop and
strip that token. -/
def colPassAttrs (attrs : List AttrEntry) : List AttrEntry × Bool :=
  match findAttr attrs "className" with
  | none => (attrs, false)
  | some ca =>
    if ca.value = .noValue then (attrs, false)
    else
      let classValue : String :=
        match ca.value with
        | .lit s => s
        | .exprStr s => s
        | _ => ""
      if classValue = "" then (attrs, false)
      else
        let classes := jsSplitSpace classValue
        match classes.find? (fun c => (colMatch c).isSome) with
        | none => (attrs, false)
        | some colClass =>
          match colMatch colClass with
          | none => (attrs, false)
          | some bpn =>
            let breakpoint := bpn.1.getD "xs"
            let attrs1 :=
              attrs ++ [.attr ⟨breakpoint, .exprNum (Int.ofNat bpn.2)⟩]
            let remaining := classes.filter (fun c => c ≠ colClass)
            let attrs2 :=
              if remaining.isEmpty then removeAttr attrs1 "className"
              else
                setFirstAttrValue attrs1 "className"
                  (.lit (joinSpace remaining))
            (attrs2, true)

/-- The special `Col` pass over the whole tree. -/
def pass4 (b : List Node) : List Node × Bool :=
  mapElemsList
    (fun n attrs =>
      if n = .ident "Col" then
        let r := colPassAttrs attrs
        (n, r.1, r.2)
      else (n, attrs, false))
    b

/-- The special `Alert` pass (source lines 507-523): a literal `variant`
value found in the `severityMap` renames the attribute to `severity` with
the mapped value; anything else is untouched. -/
def alertPassAttrs (attrs : List AttrEntry) : List AttrEntry × Bool :=
  match findAttr attrs "variant" with
  | none => (attrs, false)
  | some va =>
    if va.value = .noValue then (attrs, false)
    else
      match va.value with
      | .lit s =>
        (match lookupKey (lookupKey COMPONENT_MAP "Alert"
            |>.map Cfg2.severityMap |>.getD []) s with
         | some sev =>
           (attrs.map fun e =>
              match e with
              | .attr a =>
                if a.name = "variant" then .attr ⟨"severity", .lit sev⟩
                else .attr a
              | x => x, true)
         | none => (attrs, false))
      | _ => (attrs, false)

/-- The special `Alert` pass over the whole tree. -/
def pass5 (b : List Node) : List Node × Bool :=
  mapElemsList
    (fun n attrs =>
      if n = .ident "Alert" then
        let r := alertPassAttrs attrs
        (n, r.1, r.2)
      else (n, attrs, false))
    b

/-- The special `Container fluid` pass (source lines 526-546). -/
def containerPassAttrs (attrs : List AttrEntry) : List AttrEntry × Bool :=
  match findAttr attrs "fluid" with
  | none => (attrs, false)
  | some _ =>
    (removeAttr attrs "fluid" ++
      [.attr ⟨"maxWidth", .exprBool false⟩], true)

/-- The special `Container` pass over the whole tree. -/
def pass6 (b : List Node) : List Node × Bool :=
  mapElemsList
    (fun n attrs =>
      if n = .ident "Container" then
        let r := containerPassAttrs attrs
        (n, r.1, r.2)
      else (n, attrs, false))
    b

end Deep

mutual
/-- Opening-tag identifier names of a tree in document order (member
expressions have no `.name.name` and are skipped), as collected by the
MUI import pass (source lines 553-559). -/
def identNames : Node → List String
  | .elem n _ cs =>
    (match n with
     | .ident s => [s]
     | .member _ _ => []) ++ identNamesList cs
  | .text _ => []
  | .exprChild _ => []
/-- List version of `identNames`. -/
def identNamesList : List Node → List String
  | [] => []
  | c :: cs => identNames c ++ identNamesList cs
end

namespace Deep

/-- Name test of the import pass: is `n` the target name of some
`COMPONENT_MAP` or `SUBCOMPONENT_MAP` entry (source lines 555-556). -/
def isTargetName (n : String) : Bool :=
  COMPONENT_MAP.any (fun kc => kc.2.targetName = n) ||
  SUBCOMPONENT_MAP.any (fun kc => kc.2.targetName = n)

/-- JS `Set` accumulation: first-occurrence order, no duplicates. -/
def dedupe (l : List String) : List String :=
  l.foldl (fun acc n => if n ∈ acc then acc else acc ++ [n]) []

/-- Import path for a used component name (source lines 563-567): search
`COMPONENT_MAP` values first, then `SUBCOMPONENT_MAP` values. -/
def findCfgImport (n : String) : Option String :=
  match COMPONENT_MAP.find? (fun kc => kc.2.targetName = n) with
  | some kc => some kc.2.importPath
  | none =>
    match SUBCOMPONENT_MAP.find? (fun kc => kc.2.targetName = n) with
    | some kc => some kc.2.importPath
    | none => none

/-- Local name bound by an import specifier. -/
def specLocal : ImportSpec → String
  | .named _ l => l
  | .defaultSpec l => l
  | .nsSpec l => l

/-- The `addImport` helper (source lines 234-262): push a default specifier
onto an existing import of the same source (unless the local name is
already bound there), or append a fresh import declaration after the
last import. -/
def pushDefaultSpec (src componentName : String) :
    List ImportDecl → List ImportDecl
  | [] => []
  | d :: rest =>
    if d.source = src then
      (if d.specifiers.any (fun sp => specLocal sp = componentName) then d
       else ⟨d.source, d.specifiers ++ [.defaultSpec componentName]⟩) :: rest
    else d :: pushDefaultSpec src componentName rest

/-- The `addImport` helper continued: dispatch on whether an import of the
same source already exists. -/
def addImport (imports : List ImportDecl) (src componentName : String) :
    List ImportDecl :=
  if imports.any (fun d => d.source = src) then
    pushDefaultSpec src componentName imports
  else imports ++ [⟨src, [.defaultSpec componentName]⟩]

/-- The MUI import pass (source lines 548-578), run only when a change was
flagged: collect the used target names in document order, add one import
per name, then the `ThemeProvider` import. -/
def pass7 (imports : List ImportDecl) (body : List Node) :
    List ImportDecl :=
  let used := dedupe ((identNamesList body).filter isTargetName)
  let imports1 := used.foldl
    (fun imps n =>
      match findCfgImport n with
      | some src => addImport imps src n
      | none => imps)
    imports
  if used.isEmpty then imports1
  else addImport imports1 "@mui/material/styles" "ThemeProvider"

/-- The whole bootstrap_mui_deep.js transform: passes 1-7 in source order,
returning the `hasChanges` flag and the rewritten program. -/
def transform (p : Program) : Bool × Program :=
  let keptImports := p.imports.filter
    (fun d => !(containsSub d.source "bootstrap" ||
                containsSub d.source "react-bootstrap"))
  let c1 := p.imports.any
    (fun d => containsSub d.source "bootstrap" ||
              containsSub d.source "react-bootstrap")
  let r2 := pass2 p.body
  let r3 := pass3 r2.1
  let r4 := pass4 r3.1
  let r5 := pass5 r4.1
  let r6 := pass6 r5.1
  let changed := c1 || r2.2 || r3.2 || r4.2 || r5.2 || r6.2
  let imports' := if changed then pass7 keptImports r6.1 else keptImports
  (changed, ⟨imports', p.localDecls, r6.1⟩)

/-- The script's return value (source line 580): the rewritten tree when a
change was flagged, the original input text otherwise. -/
def run (p : Program) : Bool × Program :=
  let r := transform p
  (r.1, if r.1 then r.2 else p)

end Deep

example :
    Deep.run ⟨[], [], [.elem (.ident "Spinner") [] []]⟩ =
      (true,
        ⟨[⟨"@mui/material/CircularProgress",
            [.defaultSpec "CircularProgress"]⟩,
          ⟨"@mui/material/styles", [.defaultSpec "ThemeProvider"]⟩],
         [], [.elem (.ident "CircularProgress") [] []]⟩) := by decide

/-- Word character of the JS regex `\b` boundary: `[A-Za-z0-9_]`. -/
def wordChar (c : Char) : Bool := c.isAlphanum || c = '_'

namespace Uni

/-!
Embedding of src/js/bootstrap_mui_claude.js (the unified codemod).  Fidelity
notes:

  * `removeBootstrapImports` sets `hasChanges = true` unconditionally
    (source line 132 sits outside the `.filter(...)`), so the model's main
    pipeline starts with the changed flag already `true`.
  * The `CLASS_TO_SX` rules are regexes of the shapes `\bPREFIX-(\d)\b` and
    `\bLITERAL\b`, applied with a global `exec` loop and then removed from
    the class string via `replace(re, '')` followed by `trim()`; the
    scanner below walks the character list left to right with the same
    word-boundary semantics (every pattern ends in a word character, so the
    position after a match never starts at a boundary).
  * `transformClassNamesToSx` visits every `className` attribute; a JSX
    element carries at most one attribute of a given name in any
    non-degenerate input, so the model processes the first `className` of
    each element.
  * `transformModals` renames a matched child's closing tag without a null
    check; the single-name-field model subsumes that write.
  * The state threaded through the walkers is the import section paired
    with the `hasChanges` flag.
-/

/-- The `BUTTON_VARIANTS` table (source lines 28-40): bootstrap variant to
MUI `(variant, color)`. -/
def BUTTON_VARIANTS : List (String × String × String) := [
  ("primary", "contained", "primary"),
  ("secondary", "contained", "secondary"),
  ("success", "contained", "success"),
  ("danger", "contained", "error"),
  ("warning", "contained", "warning"),
  ("info", "contained", "info"),
  ("light", "outlined", "inherit"),
  ("dark", "contained", "inherit"),
  ("link", "text", "primary"),
  ("outline-primary", "outlined", "primary"),
  ("outline-secondary", "outlined", "secondary")]

/-- Lookup in `BUTTON_VARIANTS`. -/
def lookupVariant (l : List (String × String × String)) (k : String) :
    Option (String × String) :=
  match l with
  | [] => none
  | (k', v, c) :: rest => if k' = k then some (v, c) else lookupVariant rest k

/-- The `SIZE_MAP` table (source line 42). -/
def SIZE_MAP : List (String × String) := [("sm", "small"), ("lg", "large")]

/-- The `ALERT_SEVERITY` table (source lines 44-47). -/
def ALERT_SEVERITY : List (String × String) := [
  ("primary", "info"), ("secondary", "info"), ("success", "success"),
  ("danger", "error"), ("warning", "warning"), ("info", "info")]

/-- One `CLASS_TO_SX` rule: `\bPREF-(\d)\b` producing a numeric style
entry, or a fixed `\bLIT\b` producing constant entries. -/
inductive ClassRule
  | numRule (pref : String) (key : String)
  | litRule (lit : String) (out : List (String × SxVal))

/-- The `CLASS_TO_SX` rule list (source lines 49-68), in order. -/
def CLASS_TO_SX : List ClassRule := [
  .numRule "mb" "mb", .numRule "mt" "mt", .numRule "ms" "ml",
  .numRule "me" "mr", .numRule "mx" "mx", .numRule "my" "my",
  .numRule "p" "p", .numRule "px" "px", .numRule "py" "py",
  .numRule "pt" "pt", .numRule "pb" "pb",
  .litRule "d-flex" [("display", SxVal.str "flex")],
  .litRule "d-none" [("display", SxVal.str "none")],
  .litRule "text-center" [("textAlign", SxVal.str "center")],
  .litRule "justify-content-center" [("justifyContent", SxVal.str "center")],
  .litRule "align-items-center" [("alignItems", SxVal.str "center")],
  .litRule "flex-column" [("flexDirection", SxVal.str "column")],
  .numRule "gap" "gap"]

/-- Attempted match of one rule at the head of the character list (the
left boundary has been checked by the caller); returns the produced style
entries and the number of characters consumed. -/
def tryRuleAt (r : ClassRule) (cs : List Char) :
    Option (List (String × SxVal) × Nat) :=
  match r with
  | .numRule pref key =>
    let pat := (pref ++ "-").data
    if pat.isPrefixOf cs then
      match cs.drop pat.length with
      | d :: rest =>
        if d.isDigit && (match rest with | [] => true | c :: _ => !wordChar c)
        then some ([(key, SxVal.num (Int.ofNat (d.toNat - 48)))],
                   pat.length + 1)
        else none
      | [] => none
    else none
  | .litRule lit out =>
    let pat := lit.data
    if pat.isPrefixOf cs then
      (match cs.drop pat.length with
       | [] => some (out, pat.length)
       | c :: _ => if wordChar c then none else some (out, pat.length))
    else none

/-- Left-to-right global scan of one rule: collect the style entries of
every non-overlapping match and drop the matched spans from the string
(`exec` loop plus `replace(re, '')`).  `prevNonWord` tracks whether the
current position sits at a `\b` boundary; a match ends in a word character,
so scanning resumes with `prevNonWord = false`.  The fuel starts at the
list length, enough for the one-character steps. -/
def scanRule (r : ClassRule) : Nat → Bool → List Char →
    List (List (String × SxVal)) × List Char
  | 0, _, cs => ([], cs)
  | _ + 1, _, [] => ([], [])
  | fuel + 1, prevNonWord, c :: rest =>
    match (if prevNonWord then tryRuleAt r (c :: rest) else none) with
    | some pl =>
      let rest' := (c :: rest).drop pl.2
      let rec' := scanRule r fuel false rest'
      (pl.1 :: rec'.1, rec'.2)
    | none =>
      let rec' := scanRule r fuel (!wordChar c) rest
      (rec'.1, c :: rec'.2)

/-- The body of `transformClassNamesToSx`'s rule loop (source lines
348-357): fold every rule over the evolving class string, accumulating
matched style entries with `Object.assign` and trimming after each
replacement. -/
def runClassRules (s : String) : List (String × SxVal) × String :=
  CLASS_TO_SX.foldl
    (fun acc r =>
      let sc := scanRule r acc.2.data.length true acc.2.data
      (sc.1.foldl objAssign acc.1, jsTrim (String.mk sc.2)))
    ([], s)

/-- The `addMUIImport` helper (source lines 74-90): insert a default
MUI import of `@mui/material/NAME` before the first import unless one of
that source already exists. -/
def addMUIImport (imps : List ImportDecl) (name : String) :
    List ImportDecl :=
  let path := "@mui/material/" ++ name
  if imps.any (fun d => d.source = path) then imps
  else ⟨path, [.defaultSpec name]⟩ :: imps

/-- The `mergeSxProp` helper (source lines 92-123). -/
def mergeSxProp (attrs : List AttrEntry) (sxObj : List (String × SxVal)) :
    List AttrEntry :=
  if sxObj.isEmpty then attrs
  else
    match findAttr attrs "sx" with
    | none => attrs ++ [.attr ⟨"sx", .sxObject sxObj⟩]
    | some a =>
      match a.value with
      | .sxObject props =>
        setFirstAttrValue attrs "sx" (.sxObject (jsObjectFill props sxObj))
      | _ => attrs

/-- Literal-family test for guards of the form
`attr.value?.type === 'Literal'`. -/
def isLitFam : AttrValue → Bool
  | .lit _ => true
  | .numLit _ => true
  | .boolLit _ => true
  | _ => false

/-- The attribute rewrite of `transformButtons` (source lines 143-177):
literal `variant` values are replaced by the mapped variant/color pair or
dropped when unmapped; literal `size` values are mapped or passed through;
everything else passes through; a default `variant="contained"` is
unshifted when no literal variant was seen. -/
def transformButtonsAttrs (attrs : List AttrEntry) : List AttrEntry :=
  let r := attrs.foldl
    (fun acc e =>
      match e with
      | .spread s => (acc.1 ++ [.spread s], acc.2)
      | .attr a =>
        if a.name = "variant" && isLitFam a.value then
          match (match a.value with
                 | .lit s => lookupVariant BUTTON_VARIANTS s
                 | _ => none) with
          | some vc =>
            (acc.1 ++ [.attr ⟨"variant", .lit vc.1⟩,
                       .attr ⟨"color", .lit vc.2⟩], true)
          | none => (acc.1, true)
        else if a.name = "size" && isLitFam a.value then
          match (match a.value with
                 | .lit s => lookupKey SIZE_MAP s
                 | _ => none) with
          | some m => (acc.1 ++ [.attr ⟨"size", .lit m⟩], acc.2)
          | none => (acc.1 ++ [.attr a], acc.2)
        else (acc.1 ++ [.attr a], acc.2))
    ([], false)
  if r.2 then r.1 else .attr ⟨"variant", .lit "contained"⟩ :: r.1

/-- The attribute rewrite of `transformAlerts` (source lines 187-194): a
literal `variant` becomes `severity` with the mapped value, defaulting to
`info` when the value is unmapped (or not a string). -/
def transformAlertsAttrs (attrs : List AttrEntry) : List AttrEntry :=
  attrs.map fun e =>
    match e with
    | .attr a =>
      if a.name = "variant" && isLitFam a.value then
        .attr ⟨"severity", .lit
          (match a.value with
           | .lit s => (lookupKey ALERT_SEVERITY s).getD "info"
           | _ => "info")⟩
      else .attr a
    | x => x

end Uni

/-- State threaded through the unified codemod: import section plus the
`hasChanges` flag. -/
abbrev UniSt : Type := List ImportDecl × Bool

mutual
/-- Stateful preorder walker over a tree, applying a per-element hook to
the opening tag and attribute list (document order, parents first, the way
a jscodeshift `find(j.JSXElement).forEach` visits collected paths). -/
def uniWalk (f : UniSt → JsxName → List AttrEntry →
    UniSt × JsxName × List AttrEntry) (st : UniSt) : Node → UniSt × Node
  | .elem n attrs cs =>
    let r := f st n attrs
    let rs := uniWalkList f r.1 cs
    (rs.1, .elem r.2.1 r.2.2 rs.2)
  | .text s => (st, .text s)
  | .exprChild s => (st, .exprChild s)
/-- List version of `uniWalk`. -/
def uniWalkList (f : UniSt → JsxName → List AttrEntry →
    UniSt × JsxName × List AttrEntry) (st : UniSt) :
    List Node → UniSt × List Node
  | [] => (st, [])
  | c :: cs =>
    let r := uniWalk f st c
    let rs := uniWalkList f r.1 cs
    (rs.1, r.2 :: rs.2)
end

namespace Uni

/-- Hook of `transformButtons` (source lines 139-181). -/
def hookButtons (st : UniSt) (n : JsxName) (attrs : List AttrEntry) :
    UniSt × JsxName × List AttrEntry :=
  if n = .ident "Button" then
    ((addMUIImport st.1 "Button", true), n, transformButtonsAttrs attrs)
  else (st, n, attrs)

/-- Hook of `transformAlerts` (source lines 183-198). -/
def hookAlerts (st : UniSt) (n : JsxName) (attrs : List AttrEntry) :
    UniSt × JsxName × List AttrEntry :=
  if n = .ident "Alert" then
    ((addMUIImport st.1 "Alert", true), n, transformAlertsAttrs attrs)
  else (st, n, attrs)

/-- Attribute renames of `transformModals` (source lines 208-212):
`show` to `open`, `onHide` to `onClose`. -/
def modalAttrRename : AttrEntry → AttrEntry
  | .attr a =>
    if a.name = "show" then .attr ⟨"open", a.value⟩
    else if a.name = "onHide" then .attr ⟨"onClose", a.value⟩
    else .attr a
  | x => x

/-- MUI Dialog part for a `Modal.*` member property, per the direct-child
map of `transformModals` (source lines 218-232). -/
def modalChildTarget (prop : String) : Option String :=
  if prop = "Header" || prop = "Title" then some "DialogTitle"
  else if prop = "Body" then some "DialogContent"
  else if prop = "Footer" then some "DialogActions"
  else none

/-- Imports added while mapping the direct children of a Modal, in child
order. -/
def modalChildImports (imps : List ImportDecl) :
    List Node → List ImportDecl
  | [] => imps
  | .elem (.member "Modal" prop) _ _ :: rest =>
    (match modalChildTarget prop with
     | some tgt => modalChildImports (addMUIImport imps tgt) rest
     | none => modalChildImports imps rest)
  | _ :: rest => modalChildImports imps rest

/-- Renames applied to the direct children of a Modal: a child addressed
as `Modal.Header` / `Modal.Title` / `Modal.Body` / `Modal.Footer` becomes
the matching Dialog part; every other child is returned as is. -/
def modalRenameChildren (cs : List Node) : List Node :=
  cs.map fun c =>
    match c with
    | .elem (.member "Modal" prop) attrs gcs =>
      (match modalChildTarget prop with
       | some tgt => .elem (.ident tgt) attrs gcs
       | none => c)
    | _ => c

mutual
/-- The `transformModals` walker (source lines 200-240): every element
named `Modal` is renamed to `Dialog`, its `show` / `onHide` props renamed,
and its direct `Modal.*` children renamed to Dialog parts; the member
renames only touch a child's top-level tag, so applying them after the
recursive walk of the original children is equivalent to the source's
collect-then-mutate order. -/
def modalNode (st : UniSt) : Node → UniSt × Node
  | .elem n attrs cs =>
    if n = .ident "Modal" then
      let attrs' := attrs.map modalAttrRename
      let imps1 := modalChildImports st.1 cs
      let st2 : UniSt := (addMUIImport imps1 "Dialog", true)
      let r := modalList st2 cs
      (r.1, .elem (.ident "Dialog") attrs' (modalRenameChildren r.2))
    else
      let r := modalList st cs
      (r.1, .elem n attrs r.2)
  | .text s => (st, .text s)
  | .exprChild s => (st, .exprChild s)
/-- List version of `modalNode`. -/
def modalList (st : UniSt) : List Node → UniSt × List Node
  | [] => (st, [])
  | c :: cs =>
    let r := modalNode st c
    let rs := modalList r.1 cs
    (rs.1, r.2 :: rs.2)
end

/-- Hook of the `Row` half of `transformGrid` (source lines 243-260). -/
def hookRow (st : UniSt) (n : JsxName) (attrs : List AttrEntry) :
    UniSt × JsxName × List AttrEntry :=
  if n = .ident "Row" then
    let attrs1 :=
      if attrs.any (fun e => match e with
          | .attr a => a.name = "container" | _ => false) then attrs
      else attrs ++ [.attr ⟨"container", .noValue⟩]
    let attrs2 :=
      if attrs1.any (fun e => match e with
          | .attr a => a.name = "spacing" | _ => false) then attrs1
      else attrs1 ++ [.attr ⟨"spacing", .exprNum 2⟩]
    ((addMUIImport st.1 "Grid", true), .ident "Grid", attrs2)
  else (st, n, attrs)

/-- Hook of the `Col` half of `transformGrid` (source lines 262-276). -/
def hookCol (st : UniSt) (n : JsxName) (attrs : List AttrEntry) :
    UniSt × JsxName × List AttrEntry :=
  if n = .ident "Col" then
    let attrs1 :=
      if attrs.any (fun e => match e with
          | .attr a => a.name = "item" | _ => false) then attrs
      else .attr ⟨"item", .noValue⟩ :: attrs
    ((addMUIImport st.1 "Grid", true), .ident "Grid", attrs1)
  else (st, n, attrs)

/-- Removal of the first attribute named `n` (the `splice` of
`transformContainer`). -/
def removeFirstAttr (attrs : List AttrEntry) (n : String) :
    List AttrEntry :=
  match attrs with
  | [] => []
  | .attr a :: rest =>
    if a.name = n then rest else .attr a :: removeFirstAttr rest n
  | .spread s :: rest => .spread s :: removeFirstAttr rest n

/-- Hook of `transformContainer` (source lines 279-296): the `fluid` prop
becomes `maxWidth={false}` (flagging a change); the Container import is
added for every Container element. -/
def hookContainer (st : UniSt) (n : JsxName) (attrs : List AttrEntry) :
    UniSt × JsxName × List AttrEntry :=
  if n = .ident "Container" then
    let hasFluid := attrs.any (fun e => match e with
      | .attr a => a.name = "fluid" | _ => false)
    let attrs1 :=
      if hasFluid then
        removeFirstAttr attrs "fluid" ++
          [.attr ⟨"maxWidth", .exprBool false⟩]
      else attrs
    ((addMUIImport st.1 "Container", st.2 || hasFluid), n, attrs1)
  else (st, n, attrs)

/-- Hook of `transformCards` (source lines 298-328). -/
def hookCards (st : UniSt) (n : JsxName) (attrs : List AttrEntry) :
    UniSt × JsxName × List AttrEntry :=
  match n with
  | .member "Card" "Body" =>
    ((addMUIImport st.1 "CardContent", true), .ident "CardContent", attrs)
  | .member "Card" "Header" =>
    ((addMUIImport st.1 "CardHeader", true), .ident "CardHeader", attrs)
  | .member "Card" "Title" =>
    ((addMUIImport st.1 "Typography", true), .ident "Typography",
      attrs ++ [.attr ⟨"variant", .lit "h5"⟩,
                .attr ⟨"component", .lit "div"⟩])
  | .ident "Card" => ((addMUIImport st.1 "Card", st.2), n, attrs)
  | _ => (st, n, attrs)

/-- Hook of `transformFormControls` (source lines 330-341). -/
def hookFormControls (st : UniSt) (n : JsxName) (attrs : List AttrEntry) :
    UniSt × JsxName × List AttrEntry :=
  if n = .member "Form" "Control" then
    ((addMUIImport st.1 "TextField", true), .ident "TextField", attrs)
  else (st, n, attrs)

/-- The per-element body of `transformClassNamesToSx` (source lines
344-372): a `className` whose value is a plain string literal is run
through the rules; on a match the style entries are merged into `sx` and
the class attribute is rewritten or removed. -/
def classAttrsOne (attrs : List AttrEntry) : List AttrEntry × Bool :=
  match findAttr attrs "className" with
  | none => (attrs, false)
  | some a =>
    match a.value with
    | .lit s =>
      let rc := runClassRules s
      if rc.1.isEmpty then (attrs, false)
      else
        let attrs1 := mergeSxProp attrs rc.1
        let attrs2 :=
          if rc.2 ≠ "" then setFirstAttrValue attrs1 "className" (.lit rc.2)
          else removeAttr attrs1 "className"
        (attrs2, true)
    | _ => (attrs, false)

/-- Hook of `transformClassNamesToSx`. -/
def hookClassNames (st : UniSt) (n : JsxName) (attrs : List AttrEntry) :
    UniSt × JsxName × List AttrEntry :=
  let r := classAttrsOne attrs
  ((st.1, st.2 || r.2), n, r.1)

/-- The `removeBootstrapImports` helper (source lines 125-133): drop
`react-bootstrap` and bootstrap css imports and set the changed flag
unconditionally. -/
def removeBootstrapImports (imports : List ImportDecl) :
    List ImportDecl × Bool :=
  (imports.filter
    (fun d => !(d.source = "react-bootstrap" ||
                containsSub d.source "bootstrap/dist/css")), true)

/-- The whole bootstrap_mui_claude.js transform (source lines 379-389):
the nine passes in execution order, returning the `hasChanges` flag and
the rewritten program. -/
def transform (p : Program) : Bool × Program :=
  let rb := removeBootstrapImports p.imports
  let st0 : UniSt := (rb.1, rb.2)
  let r1 := uniWalkList hookButtons st0 p.body
  let r2 := uniWalkList hookAlerts r1.1 r1.2
  let r3 := modalList r2.1 r2.2
  let r4 := uniWalkList hookRow r3.1 r3.2
  let r5 := uniWalkList hookCol r4.1 r4.2
  let r6 := uniWalkList hookContainer r5.1 r5.2
  let r7 := uniWalkList hookCards r6.1 r6.2
  let r8 := uniWalkList hookFormControls r7.1 r7.2
  let r9 := uniWalkList hookClassNames r8.1 r8.2
  (r9.1.2, ⟨r9.1.1, p.localDecls, r9.2⟩)

/-- The script's return value (source line 389): the rewritten source when
a change was flagged, the `null` sentinel (modelled as the unchanged
input) otherwise. -/
def run (p : Program) : Bool × Program :=
  let r := transform p
  (r.1, if r.1 then r.2 else p)

end Uni

example :
    (Uni.transform ⟨[], [],
      [.elem (.ident "Button") [.attr ⟨"variant", .lit "primary"⟩] []]⟩) =
    (true,
      ⟨[⟨"@mui/material/Button", [.defaultSpec "Button"]⟩], [],
       [.elem (.ident "Button")
         [.attr ⟨"variant", .lit "contained"⟩,
          .attr ⟨"color", .lit "primary"⟩] []]⟩) := by decide

example :
    Uni.runClassRules "d-flex custom mb-2" =
      ([("mb", SxVal.num 2), ("display", SxVal.str "flex")], "custom") := by
  decide

namespace RbC

/-!
Embedding of src/js/react-bootstrap-to-mui_claude.js.  Fidelity notes:

  * `Program.localDecls` stands for the union of the three collections of
    lines 84-104 (function-valued variable declarators, function
    declarations, class declarations); all three only ever feed the one
    `localComponents` set.
  * Entries of `componentMap` that are `null` (Row, Form) are falsy, so
    they never enter `componentsToReplace`.
  * The hard-coded MUI-name ternary chain appears twice in the source and
    the two copies differ: the import-building chain (lines 128-137) has
    no entry for `Modal`, the JSX-renaming chain (lines 158-168) maps
    `Modal` to `Dialog`.  Both chains are modelled as written.
  * A `Button` whose `variant` attribute has no value would make the
    source throw on `attr.value.value`; the model leaves non-string-literal
    values unchanged and no claim exercises the throwing input.
-/

/-- The `componentMap` table (source lines 17-60); `none` models `null`. -/
def componentMap : List (String × Option String) := [
  ("Container", some "@mui/material/Container"),
  ("Row", none),
  ("Col", some "@mui/material/Grid"),
  ("Button", some "@mui/material/Button"),
  ("ButtonGroup", some "@mui/material/ButtonGroup"),
  ("Form", none),
  ("FormControl", some "@mui/material/FormControl"),
  ("FormGroup", some "@mui/material/FormGroup"),
  ("FormLabel", some "@mui/material/FormLabel"),
  ("FormCheck", some "@mui/material/Checkbox"),
  ("InputGroup", some "@mui/material/TextField"),
  ("Nav", some "@mui/material/Tabs"),
  ("Navbar", some "@mui/material/AppBar"),
  ("NavDropdown", some "@mui/material/Menu"),
  ("Alert", some "@mui/material/Alert"),
  ("Badge", some "@mui/material/Badge"),
  ("Card", some "@mui/material/Card"),
  ("CardBody", some "@mui/material/CardContent"),
  ("CardHeader", some "@mui/material/CardHeader"),
  ("CardFooter", some "@mui/material/CardActions"),
  ("Dropdown", some "@mui/material/Select"),
  ("Modal", some "@mui/material/Dialog"),
  ("ModalHeader", some "@mui/material/DialogTitle"),
  ("ModalBody", some "@mui/material/DialogContent"),
  ("ModalFooter", some "@mui/material/DialogActions"),
  ("Spinner", some "@mui/material/CircularProgress"),
  ("Table", some "@mui/material/Table"),
  ("Toast", some "@mui/material/Snackbar"),
  ("Tooltip", some "@mui/material/Tooltip"),
  ("Pagination", some "@mui/material/Pagination"),
  ("ProgressBar", some "@mui/material/LinearProgress"),
  ("ListGroup", some "@mui/material/List"),
  ("ListGroupItem", some "@mui/material/ListItem")]

/-- Imported names of `ImportSpecifier`s under `react-bootstrap` imports,
in document order with `Set` deduplication (source lines 63-72). -/
def bootstrapImportsOf (imports : List ImportDecl) : List String :=
  Deep.dedupe
    (imports.foldl
      (fun acc d =>
        if d.source = "react-bootstrap" then
          acc ++ d.specifiers.filterMap
            (fun sp => match sp with
              | .named imported _ => some imported
              | _ => none)
        else acc)
      [])

/-- The MUI-name chain used when building imports (source lines 128-137;
note the missing `Modal` case). -/
def muiNameChain1 (c : String) : String :=
  if c = "CardBody" then "CardContent"
  else if c = "CardFooter" then "CardActions"
  else if c = "FormCheck" then "Checkbox"
  else if c = "Spinner" then "CircularProgress"
  else if c = "ProgressBar" then "LinearProgress"
  else if c = "ListGroupItem" then "ListItem"
  else if c = "ModalHeader" then "DialogTitle"
  else if c = "ModalBody" then "DialogContent"
  else if c = "ModalFooter" then "DialogActions"
  else c

/-- The MUI-name chain used when renaming JSX (source lines 158-168;
includes `Modal` to `Dialog`). -/
def muiNameChain2 (c : String) : String :=
  if c = "CardBody" then "CardContent"
  else if c = "CardFooter" then "CardActions"
  else if c = "FormCheck" then "Checkbox"
  else if c = "Spinner" then "CircularProgress"
  else if c = "ProgressBar" then "LinearProgress"
  else if c = "ListGroupItem" then "ListItem"
  else if c = "ModalHeader" then "DialogTitle"
  else if c = "ModalBody" then "DialogContent"
  else if c = "ModalFooter" then "DialogActions"
  else if c = "Modal" then "Dialog"
  else c

/-- Bootstrap-to-MUI `variant` value fix for Button (source lines
179-185). -/
def buttonVariantFix : AttrEntry → AttrEntry
  | .attr a =>
    if a.name = "variant" then
      match a.value with
      | .lit s =>
        .attr ⟨a.name, .lit
          (if s = "primary" then "contained"
           else if s = "secondary" then "outlined"
           else if s = "link" then "text"
           else s)⟩
      | _ => .attr a
    else .attr a
  | x => x

/-- The `show` to `open` rename for Modal (source lines 210-218). -/
def showToOpen : AttrEntry → AttrEntry
  | .attr a => if a.name = "show" then .attr ⟨"open", a.value⟩ else .attr a
  | x => x

/-- Per-element rewrite for one `componentsToReplace` entry (source lines
170-229): rename to the chain-2 name and apply the per-component prop
specials. -/
def renameHook (comp : String) (n : JsxName) (attrs : List AttrEntry) :
    JsxName × List AttrEntry × Bool :=
  if n = .ident comp then
    let newName : JsxName := .ident (muiNameChain2 comp)
    if comp = "Button" then (newName, attrs.map buttonVariantFix, true)
    else if comp = "Col" then
      (newName, attrs ++ [.attr ⟨"item", .noValue⟩], true)
    else if comp = "Row" then
      (.ident "Grid",
        attrs ++ [.attr ⟨"container", .noValue⟩,
                  .attr ⟨"spacing", .exprNum 2⟩], true)
    else if comp = "Modal" then (newName, attrs.map showToOpen, true)
    else (newName, attrs, true)
  else (n, attrs, false)

/-- The `muiImports` map (source lines 120-140): association list from MUI
module path to scheduled component names, in first-insertion order. -/
def buildMuiImports (toReplace : List String) :
    List (String × List String) :=
  toReplace.foldl
    (fun acc comp =>
      match lookupKey componentMap comp with
      | some (some path) =>
        let nm := muiNameChain1 comp
        if (lookupKey acc path).isSome then
          acc.map (fun pr => if pr.1 = path then (pr.1, pr.2 ++ [nm]) else pr)
        else acc ++ [(path, [nm])]
      | _ => acc)
    []

/-- The whole react-bootstrap-to-mui_claude.js transform (lines 11-233):
collect bootstrap imports, short-circuit when there are none, filter out
locally declared names and unmapped names, drop every `react-bootstrap`
declaration of the import section, prepend the scheduled MUI imports
(only when some import remains to insert before), and rename the matched
JSX elements. -/
def transform (p : Program) : Bool × Program :=
  let bootstrapImports := bootstrapImportsOf p.imports
  if bootstrapImports.isEmpty then (false, p)
  else
    let toReplace := bootstrapImports.filter
      (fun c =>
        !(p.localDecls.contains c) &&
        (match lookupKey componentMap c with
         | some (some _) => true
         | _ => false))
    let imports1 := p.imports.filter (fun d => d.source ≠ "react-bootstrap")
    let muiDecls := (buildMuiImports toReplace).map
      (fun pr => ImportDecl.mk pr.1
        ((Deep.dedupe pr.2).map (fun nm => ImportSpec.named nm nm)))
    let imports2 := if imports1.isEmpty then imports1
                    else muiDecls ++ imports1
    let body1 := toReplace.foldl
      (fun b comp => (mapElemsList (renameHook comp) b).1)
      p.body
    (true, ⟨imports2, p.localDecls, body1⟩)

end RbC

example :
    RbC.transform ⟨[⟨"react-bootstrap", [.named "Carousel" "Carousel"]⟩],
      [], [.elem (.ident "Carousel") [] []]⟩ =
    (true, ⟨[], [], [.elem (.ident "Carousel") [] []]⟩) := by decide

example :
    RbC.transform ⟨[], [], [.elem (.ident "Button") [] []]⟩ =
    (false, ⟨[], [], [.elem (.ident "Button") [] []]⟩) := by decide

namespace Manus

/-!
Embedding of src/js/react-bootstrap-to-mui_manus.js.  Fidelity notes:

  * A `propMap` entry whose value is `null` (Input.type,
    FormControl.controlId) is falsy, so the guard
    `propMap[orig][attr.name.name]` never fires for it and the attribute
    passes through unchanged — the explicit `propTransformer === null`
    removal branch (line 137) is dead code.  The model keeps the entry as
    `nullRule` with exactly that pass-through behaviour.
  * A transformer function receives `attr.value ? (literal ? its value :
    the value node) : true` (line 132); `ManusArg` mirrors those three
    shapes, and a function result that is not a `JSXAttribute` is wrapped
    by `j.literal(...)` under the original attribute name —
    `AttrValue.litOf` stands for the `Literal` node the source builds from
    a non-primitive result.
  * None of the table's functions returns `null`, so the trailing
    `.filter(Boolean)` never drops an attribute.
-/

/-- One `componentMap` entry: MUI name and import path. -/
structure MCfg where
  mui : String
  importPath : String
deriving DecidableEq, Repr

/-- The `componentMap` table (source lines 2-28), in entry order. -/
def componentMap : List (String × MCfg) := [
  ("Button", ⟨"Button", "@mui/material"⟩),
  ("Card", ⟨"Card", "@mui/material"⟩),
  ("Modal", ⟨"Dialog", "@mui/material"⟩),
  ("Form", ⟨"FormControl", "@mui/material"⟩),
  ("Input", ⟨"TextField", "@mui/material"⟩),
  ("FormControl", ⟨"TextField", "@mui/material"⟩),
  ("Navbar", ⟨"AppBar", "@mui/material"⟩),
  ("Dropdown", ⟨"Menu", "@mui/material"⟩),
  ("Table", ⟨"Table", "@mui/material"⟩),
  ("Badge", ⟨"Badge", "@mui/material"⟩),
  ("Alert", ⟨"Alert", "@mui/material"⟩),
  ("Container", ⟨"Container", "@mui/material"⟩),
  ("Row", ⟨"Grid", "@mui/material"⟩),
  ("Col", ⟨"Grid", "@mui/material"⟩),
  ("Tabs", ⟨"Tabs", "@mui/material"⟩),
  ("Tab", ⟨"Tab", "@mui/material"⟩),
  ("Pagination", ⟨"Pagination", "@mui/material"⟩),
  ("Spinner", ⟨"CircularProgress", "@mui/material"⟩),
  ("Toast", ⟨"Snackbar", "@mui/material"⟩),
  ("ButtonGroup", ⟨"ButtonGroup", "@mui/material"⟩),
  ("Accordion", ⟨"Accordion", "@mui/material"⟩),
  ("Offcanvas", ⟨"Drawer", "@mui/material"⟩),
  ("ProgressBar", ⟨"LinearProgress", "@mui/material"⟩),
  ("ListGroup", ⟨"List", "@mui/material"⟩),
  ("ListGroupItem", ⟨"ListItem", "@mui/material"⟩)]

/-- Argument passed to a prop transformer function (source line 132). -/
inductive ManusArg
  | str (s : String)
  | num (n : Int)
  | bool (b : Bool)
  | nodeArg (v : AttrValue)
  | jsTrue
deriving DecidableEq, Repr

/-- Result of a prop transformer function. -/
inductive ManusFnResult
  | attrR (a : JsxAttr)
  | valR (v : ManusArg)
deriving DecidableEq, Repr

/-- A `propMap` entry: direct rename string, the dead `null` entry, or a
transformer function. -/
inductive ManusRule
  | strRule (newName : String)
  | nullRule
  | fnRule (f : ManusArg → ManusFnResult)

/-- JS `parseInt(value, 10)`: optional leading whitespace and sign, then
leading digits; anything else yields `NaN`. -/
def jsParseInt (s : String) : Option Int :=
  let cs := s.data.dropWhile Char.isWhitespace
  let signed : Bool × List Char :=
    match cs with
    | '-' :: r => (true, r)
    | '+' :: r => (false, r)
    | r => (false, r)
  let ds := signed.2.takeWhile Char.isDigit
  if ds.isEmpty then none
  else
    let v : Int := Int.ofNat (ds.foldl (fun a c => a * 10 + (c.toNat - 48)) 0)
    some (if signed.1 then -v else v)

/-- Value of `j.literal(parseInt(value, 10))`: a numeric literal or the
`NaN` literal. -/
def parseIntVal (arg : ManusArg) : AttrValue :=
  match arg with
  | .str s =>
    (match jsParseInt s with
     | some n => .numLit n
     | none => .nanLit)
  | .num n => .numLit n
  | _ => .nanLit

/-- Col breakpoint transformer for `name` among xs / sm / md / lg / xl
(source lines 64-68). -/
def colSizeFn (nm : String) : ManusRule :=
  .fnRule fun arg => .attrR ⟨nm, parseIntVal arg⟩

/-- The `propMap` table (source lines 31-80), in entry order. -/
def propMap : List (String × List (String × ManusRule)) := [
  ("Button", [
    ("variant", .fnRule fun arg =>
      match arg with
      | .str "primary" => .valR (.str "contained")
      | .str "secondary" => .valR (.str "outlined")
      | .str "link" => .valR (.str "text")
      | v => .valR v),
    ("size", .fnRule fun arg =>
      .valR (.str
        (match arg with
         | .str "sm" => "small"
         | .str "lg" => "large"
         | _ => "medium")))]),
  ("Modal", [("show", .strRule "open"), ("onHide", .strRule "onClose")]),
  ("Row", [
    ("className", .fnRule fun _ => .attrR ⟨"container", .noValue⟩),
    ("noGutters", .fnRule fun _ => .attrR ⟨"spacing", .numLit 0⟩)]),
  ("Col", [
    ("xs", colSizeFn "xs"), ("sm", colSizeFn "sm"), ("md", colSizeFn "md"),
    ("lg", colSizeFn "lg"), ("xl", colSizeFn "xl"),
    ("className", .fnRule fun _ => .attrR ⟨"item", .noValue⟩)]),
  ("Input", [("type", .nullRule)]),
  ("FormControl", [("controlId", .nullRule)])]

/-- The transformer-function argument for an attribute value (line 132). -/
def manusArgOf : AttrValue → ManusArg
  | .noValue => .jsTrue
  | .lit s => .str s
  | .numLit n => .num n
  | .boolLit b => .bool b
  | v => .nodeArg v

/-- The `j.literal(...)` wrapping of a non-attribute function result
(line 136). -/
def manusLiteral : ManusArg → AttrValue
  | .str s => .lit s
  | .num n => .numLit n
  | .bool b => .boolLit b
  | .jsTrue => .boolLit true
  | .nodeArg v => .litOf v

/-- One step of the prop-transform map (source lines 127-145). -/
def manusApplyProp (pm : List (String × ManusRule)) (e : AttrEntry) :
    Option AttrEntry :=
  match e with
  | .attr a =>
    (match lookupKey pm a.name with
     | some rule =>
       (match rule with
        | .nullRule => some (.attr a)
        | .strRule newName => some (.attr ⟨newName, a.value⟩)
        | .fnRule f =>
          (match f (manusArgOf a.value) with
           | .attrR na => some (.attr na)
           | .valR v => some (.attr ⟨a.name, manusLiteral v⟩)))
     | none => some (.attr a))
  | x => some x

/-- The react-bootstrap import table of step 1 (source lines 90-97):
`Map<localName, importedName>` with set-overwrite semantics. -/
def collectImports (imports : List ImportDecl) : List (String × String) :=
  imports.foldl
    (fun acc d =>
      if d.source = "react-bootstrap" then
        d.specifiers.foldl
          (fun acc2 sp =>
            match sp with
            | .named imported lname =>
              if (lookupKey acc2 lname).isSome then
                acc2.map (fun pr =>
                  if pr.1 = lname then (lname, imported) else pr)
              else acc2 ++ [(lname, imported)]
            | _ => acc2)
          acc
      else acc)
    []

mutual
/-- Step 2 of the manus transformer (source lines 100-150): rewrite every
JSX element whose local tag name is bound by a `react-bootstrap` import
and mapped by `componentMap`; member-named elements and unbound names are
left untouched (children are still visited). -/
def manusNode (table : List (String × String)) : Node → Node
  | .elem n attrs cs =>
    let cs' := manusList table cs
    (match n with
     | .ident lname =>
       (match lookupKey table lname with
        | some orig =>
          (match lookupKey componentMap orig with
           | some cfg =>
             let attrs' :=
               match lookupKey propMap orig with
               | some pm => attrs.filterMap (manusApplyProp pm)
               | none => attrs
             .elem (.ident cfg.mui) attrs' cs'
           | none => .elem n attrs cs')
        | none => .elem n attrs cs')
     | _ => .elem n attrs cs')
  | .text s => .text s
  | .exprChild s => .exprChild s
/-- List version of `manusNode`. -/
def manusList (table : List (String × String)) : List Node → List Node
  | [] => []
  | c :: cs => manusNode table c :: manusList table cs
end

/-- The react-bootstrap specifier filter of step 3 (source lines 192-205):
a specifier is kept exactly when its local name is not in the import table
or its original name has no `componentMap` entry. -/
def filterSpecs (table : List (String × String))
    (specs : List ImportSpec) : List ImportSpec :=
  specs.filter fun sp =>
    match lookupKey table (Deep.specLocal sp) with
    | some orig => (lookupKey componentMap orig).isNone
    | none => true

/-- Step 3 applied to one `react-bootstrap` import declaration: the
declaration keeps the surviving specifiers or is removed when none
survive. -/
def rewriteBootstrapImport (table : List (String × String))
    (d : ImportDecl) : Option ImportDecl :=
  let newSpecifiers := filterSpecs table d.specifiers
  if newSpecifiers.isEmpty then none
  else some ⟨d.source, newSpecifiers⟩

end Manus

example :
    Manus.manusNode [("Button", "Button")]
      (.elem (.ident "Button") [.attr ⟨"variant", .lit "primary"⟩] []) =
    .elem (.ident "Button") [.attr ⟨"variant", .lit "contained"⟩] [] := by
  decide

example :
    Manus.manusNode []
      (.elem (.ident "Button") [.attr ⟨"variant", .lit "primary"⟩] []) =
    .elem (.ident "Button") [.attr ⟨"variant", .lit "primary"⟩] [] := by
  decide

namespace Part1

/-!
Embedding of the first pass of src/unnamed/part_001 (lines 134-182): each
`react-bootstrap` import declaration is walked; named specifiers with a
`REPLACEMENTS` entry are removed and scheduled for re-import (preserving
the local alias, and recording `Card` aliases), unknown named specifiers
and non-named specifiers stay on the original declaration, and the
declaration itself is dropped only when no specifier remains.
-/

/-- One `REPLACEMENTS` entry: new name and MUI import source. -/
structure Repl where
  newName : String
  importSource : String
deriving DecidableEq, Repr

/-- The `REPLACEMENTS` table (source lines 57-106), in entry order. -/
def REPLACEMENTS : List (String × Repl) := [
  ("Alert", ⟨"Alert", "@mui/material/Alert"⟩),
  ("Badge", ⟨"Badge", "@mui/material/Badge"⟩),
  ("Breadcrumb", ⟨"Breadcrumbs", "@mui/material/Breadcrumbs"⟩),
  ("Button", ⟨"Button", "@mui/material/Button"⟩),
  ("ButtonGroup", ⟨"ButtonGroup", "@mui/material/ButtonGroup"⟩),
  ("Card", ⟨"Card", "@mui/material/Card"⟩),
  ("CardImg", ⟨"CardMedia", "@mui/material/CardMedia"⟩),
  ("CardImgOverlay", ⟨"CardMedia", "@mui/material/CardMedia"⟩),
  ("CardBody", ⟨"CardContent", "@mui/material/CardContent"⟩),
  ("CardHeader", ⟨"CardHeader", "@mui/material/CardHeader"⟩),
  ("CardFooter", ⟨"CardActions", "@mui/material/CardActions"⟩),
  ("CardTitle", ⟨"Typography", "@mui/material/Typography"⟩),
  ("CardSubtitle", ⟨"Typography", "@mui/material/Typography"⟩),
  ("CardText", ⟨"Typography", "@mui/material/Typography"⟩),
  ("Navbar", ⟨"AppBar", "@mui/material/AppBar"⟩),
  ("Nav", ⟨"Tabs", "@mui/material/Tabs"⟩),
  ("NavItem", ⟨"Tab", "@mui/material/Tab"⟩),
  ("NavLink", ⟨"Tab", "@mui/material/Tab"⟩),
  ("NavDropdown", ⟨"Menu", "@mui/material/Menu"⟩),
  ("Dropdown", ⟨"Menu", "@mui/material/Menu"⟩),
  ("DropdownButton", ⟨"Menu", "@mui/material/Menu"⟩),
  ("Form", ⟨"Box", "@mui/material/Box"⟩),
  ("FormLabel", ⟨"InputLabel", "@mui/material/InputLabel"⟩),
  ("FormControl", ⟨"FormControl", "@mui/material/FormControl"⟩),
  ("FormGroup", ⟨"FormGroup", "@mui/material/FormGroup"⟩),
  ("FormText", ⟨"FormHelperText", "@mui/material/FormHelperText"⟩),
  ("FormSelect", ⟨"Select", "@mui/material/Select"⟩),
  ("InputGroup", ⟨"Input", "@mui/material/Input"⟩),
  ("FloatingLabel", ⟨"InputLabel", "@mui/material/InputLabel"⟩),
  ("Modal", ⟨"Modal", "@mui/material/Modal"⟩),
  ("Tooltip", ⟨"Tooltip", "@mui/material/Tooltip"⟩),
  ("Popover", ⟨"Popover", "@mui/material/Popover"⟩),
  ("Pagination", ⟨"Pagination", "@mui/material/Pagination"⟩),
  ("ProgressBar", ⟨"LinearProgress", "@mui/material/LinearProgress"⟩),
  ("Spinner", ⟨"CircularProgress", "@mui/material/CircularProgress"⟩),
  ("Table", ⟨"Table", "@mui/material/Table"⟩),
  ("Tbody", ⟨"TableBody", "@mui/material/TableBody"⟩),
  ("Td", ⟨"TableCell", "@mui/material/TableCell"⟩),
  ("Th", ⟨"TableCell", "@mui/material/TableCell"⟩),
  ("Thead", ⟨"TableHead", "@mui/material/TableHead"⟩),
  ("Tr", ⟨"TableRow", "@mui/material/TableRow"⟩),
  ("Collapse", ⟨"Collapse", "@mui/material/Collapse"⟩),
  ("CloseButton", ⟨"IconButton", "@mui/material/IconButton"⟩)]

/-- A scheduled re-import: MUI source, imported name, preserved local
alias. -/
structure Scheduled where
  importSource : String
  importedName : String
  localName : String
deriving DecidableEq, Repr

/-- Processing of the specifier list of one `react-bootstrap` import
(source lines 140-173): remaining specifiers, scheduled MUI re-imports (in
order), and collected `Card` aliases. -/
def processSpecifiers (specs : List ImportSpec) :
    List ImportSpec × List Scheduled × List String :=
  specs.foldl
    (fun acc sp =>
      match sp with
      | .named imported lname =>
        (match lookupKey REPLACEMENTS imported with
         | some repl =>
           (acc.1,
            acc.2.1 ++ [⟨repl.importSource, repl.newName, lname⟩],
            acc.2.2 ++ (if imported = "Card" then [lname] else []))
         | none => (acc.1 ++ [sp], acc.2.1, acc.2.2))
      | other => (acc.1 ++ [other], acc.2.1, acc.2.2))
    ([], [], [])

/-- Fate of one `react-bootstrap` import declaration (source lines
176-181): kept with the remaining specifiers, or removed entirely when
none remain. -/
def rewriteImport (d : ImportDecl) : Option ImportDecl :=
  let r := processSpecifiers d.specifiers
  if r.1.isEmpty then none else some ⟨d.source, r.1⟩

end Part1

namespace Gem1

/-!
Embedding of the prop-transform loop of the first transformer of
src/js/react-bootstrap-to-mui_gemini2.js (lines 205-236) together with the
`Button` entry of its `COMPONENT_MAP` (lines 12-28).  Fidelity notes:

  * The loop reads `attr.value.expression?.value ?? attr.value.value`
    before dispatching on the rule, so a ruled attribute with no value
    (`attr.value === null`) faults on the property access; the whole loop
    is therefore modelled in `Except`.
  * The `variant` function calls `value.startsWith(...)`, a `TypeError`
    whenever the value is not a string (in particular for a computed
    expression, whose extracted value is `undefined`).
  * The `size` function is a pure conditional chain and yields `'medium'`
    for every value other than the literals `'lg'` / `'sm'` — including a
    computed expression.
  * Results with `type: 'sx'` are accumulated into the `sxProps` list (the
    source then builds a malformed object property out of the key array;
    the model records the raw style object, which no Button rule ever
    produces).
-/

/-- A JS primitive extracted from a literal attribute value. -/
inductive GemVal
  | str (s : String)
  | num (n : Int)
  | bool (b : Bool)
deriving DecidableEq, Repr

/-- Extraction `attr.value.expression?.value ?? attr.value.value` for a
non-null attribute value. -/
def gemValueOf : AttrValue → Option GemVal
  | .lit s => some (.str s)
  | .numLit n => some (.num n)
  | .boolLit b => some (.bool b)
  | .exprStr s => some (.str s)
  | .exprNum n => some (.num n)
  | .exprBool b => some (.bool b)
  | _ => none

/-- One output of a prop-rule function. -/
inductive Gem1Res
  | attrRes (newName : String) (newValue : GemVal)
  | sxRes (value : List (String × SxVal))
deriving DecidableEq, Repr

/-- Shape of a prop-rule function result: a single object or an array. -/
inductive Gem1FnOut
  | one (r : Gem1Res)
  | many (rs : List Gem1Res)
deriving DecidableEq, Repr

/-- A `propMap` entry of the first gemini transformer. -/
inductive Gem1Rule
  | renameStr (newName : String)
  | fnRule (f : Option GemVal → Except Unit Gem1FnOut)

/-- The `Button.propMap.variant` function (source lines 16-23): splits
`outline-*` into an outlined variant plus colour; faults on any non-string
value. -/
def buttonVariantFn (v : Option GemVal) : Except Unit Gem1FnOut :=
  match v with
  | some (.str s) =>
    let outlined := "outline-".data.isPrefixOf s.data
    let color := if outlined then String.mk (s.data.drop 8) else s
    .ok (.many [
      .attrRes "variant" (.str (if outlined then "outlined" else "contained")),
      .attrRes "color" (.str color)])
  | _ => .error ()

/-- The `Button.propMap.size` function (source line 24): `lg` and `sm` map
to `large` / `small`, everything else — a computed value included — to
`medium`. -/
def buttonSizeFn (v : Option GemVal) : Except Unit Gem1FnOut :=
  .ok (.one (.attrRes "size" (.str
    (match v with
     | some (.str "lg") => "large"
     | some (.str "sm") => "small"
     | _ => "medium"))))

/-- The `Button` prop map (source lines 15-27). -/
def buttonPropMap : List (String × Gem1Rule) := [
  ("variant", .fnRule buttonVariantFn),
  ("size", .fnRule buttonSizeFn),
  ("active", .renameStr "active"),
  ("disabled", .renameStr "disabled")]

/-- The `j.literal(res.newValue)` of the loop. -/
def gemLiteral : GemVal → AttrValue
  | .str s => .lit s
  | .num n => .numLit n
  | .bool b => .boolLit b

/-- Pushes for one rule-function output. -/
def pushResults (acc : List AttrEntry × List (List (String × SxVal))) :
    Gem1FnOut → List AttrEntry × List (List (String × SxVal))
  | .one (.attrRes nn nv) => (acc.1 ++ [.attr ⟨nn, gemLiteral nv⟩], acc.2)
  | .one (.sxRes v) => (acc.1, acc.2 ++ [v])
  | .many rs =>
    rs.foldl
      (fun a r =>
        match r with
        | .attrRes nn nv => (a.1 ++ [.attr ⟨nn, gemLiteral nv⟩], a.2)
        | .sxRes v => (a.1, a.2 ++ [v]))
      acc

/-- The prop-transform loop (source lines 205-236): build the new
attribute list and the pending `sxProps`, faulting where the source
faults. -/
def transformAttrs (pm : List (String × Gem1Rule))
    (attrs : List AttrEntry) :
    Except Unit (List AttrEntry × List (List (String × SxVal))) :=
  attrs.foldlM
    (fun acc e =>
      match e with
      | .spread s => .ok (acc.1 ++ [.spread s], acc.2)
      | .attr a =>
        match lookupKey pm a.name with
        | some rule =>
          (match a.value, rule with
           | .noValue, _ => .error ()
           | _, .renameStr nn => .ok (acc.1 ++ [.attr ⟨nn, a.value⟩], acc.2)
           | _, .fnRule f =>
             (f (gemValueOf a.value)).map (pushResults acc))
        | none => .ok (acc.1 ++ [.attr a], acc.2))
    ([], [])

end Gem1

namespace Gem2

/-- The `mergeSxAttribute` helper of the second gemini transformer
(source lines 392-430): append a fresh `sx` when none exists; fill missing
keys when the existing `sx` holds an object literal; otherwise replace the
whole `sx` value with the new object (the source comment: substitute `sx`
by an object containing only the extra entries). -/
def mergeSxAttribute (attrs : List AttrEntry)
    (extraObj : List (String × SxVal)) : List AttrEntry :=
  match findAttr attrs "sx" with
  | none => attrs ++ [.attr ⟨"sx", .sxObject extraObj⟩]
  | some a =>
    match a.value with
    | .sxObject props =>
      setFirstAttrValue attrs "sx" (.sxObject (jsObjectFill props extraObj))
    | _ => setFirstAttrValue attrs "sx" (.sxObject extraObj)

end Gem2

example :
    Gem1.transformAttrs Gem1.buttonPropMap
      [.attr ⟨"size", .exprOpaque "dynamicSize"⟩] =
    .ok ([.attr ⟨"size", .lit "medium"⟩], []) := rfl

example :
    Part1.rewriteImport ⟨"react-bootstrap",
      [.named "Button" "Button", .named "Carousel" "Carousel"]⟩ =
    some ⟨"react-bootstrap", [.named "Carousel" "Carousel"]⟩ := by decide


section Helpers

theorem lookupKey_append {α : Type} (l₁ l₂ : List (String × α)) (k : String) :
    lookupKey (l₁ ++ l₂) k =
      match lookupKey l₁ k with
      | some v => some v
      | none => lookupKey l₂ k := by
  induction l₁ with
  | nil => simp [lookupKey]
  | cons p rest ih =>
    simp only [List.cons_append, lookupKey]
    by_cases h : p.1 = k <;> simp [h, ih]

theorem jsObjectFill_cons (P : List (String × SxVal)) (kv : String × SxVal)
    (news : List (String × SxVal)) :
    jsObjectFill P (kv :: news) =
      jsObjectFill (if (lookupKey P kv.1).isSome then P else P ++ [kv])
        news := by
  by_cases h : (lookupKey P kv.1).isSome <;> simp [jsObjectFill, h]

theorem jsObjectFill_lookup_some :
    ∀ (news P : List (String × SxVal)) (k : String),
      (lookupKey P k).isSome →
      lookupKey (jsObjectFill P news) k = lookupKey P k := by
  intro news
  induction news with
  | nil => intro P k _; rfl
  | cons kv news ih =>
    intro P k hk
    rw [jsObjectFill_cons]
    cases hl : lookupKey P kv.1 with
    | some v =>
      simp only [hl, Option.isSome_some, if_true]
      exact ih P k hk
    | none =>
      rw [if_neg (by simp)]
      have happ : lookupKey (P ++ [kv]) k = lookupKey P k := by
        rw [lookupKey_append]
        cases hx : lookupKey P k with
        | some v => rfl
        | none => rw [hx] at hk; simp at hk
      rw [ih (P ++ [kv]) k (by rw [happ]; exact hk), happ]

theorem jsObjectFill_lookup_none :
    ∀ (news P : List (String × SxVal)) (k : String),
      lookupKey P k = none →
      lookupKey (jsObjectFill P news) k = lookupKey news k := by
  intro news
  induction news with
  | nil => intro P k hk; simpa [jsObjectFill, lookupKey] using hk
  | cons kv news ih =>
    intro P k hk
    rw [jsObjectFill_cons]
    by_cases heq : kv.1 = k
    · have hnone : ¬((lookupKey P kv.1).isSome = true) := by
        rw [heq, hk]; simp
      rw [if_neg hnone]
      have happ : lookupKey (P ++ [kv]) k = some kv.2 := by
        rw [lookupKey_append, hk]
        simp [lookupKey, heq]
      rw [jsObjectFill_lookup_some news (P ++ [kv]) k (by rw [happ]; rfl),
        happ]
      simp [lookupKey, heq]
    · by_cases h : (lookupKey P kv.1).isSome = true
      · rw [if_pos h, ih _ k hk]
        simp [lookupKey, heq]
      · rw [if_neg h]
        have hacc : lookupKey (P ++ [kv]) k = none := by
          rw [lookupKey_append, hk]
          simp [lookupKey, heq]
        rw [ih _ k hacc]
        simp [lookupKey, heq]

theorem findAttr_name :
    ∀ (attrs : List AttrEntry) (n : String) (a : JsxAttr),
      findAttr attrs n = some a → a.name = n := by
  intro attrs n
  induction attrs with
  | nil => intro a h; simp [findAttr] at h
  | cons e rest ih =>
    intro a h
    cases e with
    | attr b =>
      by_cases hb : b.name = n
      · simp only [findAttr, hb, if_pos] at h
        rw [← Option.some_inj.mp h, hb]
      · simp only [findAttr, hb, if_neg, if_false] at h
        exact ih a h
    | spread s =>
      simp only [findAttr] at h
      exact ih a h

theorem findAttr_append_some (l₁ l₂ : List AttrEntry) (n : String)
    (a : JsxAttr) (h : findAttr l₁ n = some a) :
    findAttr (l₁ ++ l₂) n = some a := by
  induction l₁ with
  | nil => simp [findAttr] at h
  | cons e rest ih =>
    cases e with
    | attr b =>
      by_cases hb : b.name = n
      · simp only [findAttr, hb, if_pos] at h
        simp only [List.cons_append, findAttr, hb, if_pos]
        exact h
      · simp only [findAttr, hb, if_false] at h
        simp only [List.cons_append, findAttr, hb, if_false]
        exact ih h
    | spread s =>
      simp only [findAttr] at h
      simp only [List.cons_append, findAttr]
      exact ih h

theorem findAttr_setFirst_self :
    ∀ (attrs : List AttrEntry) (n : String) (v : AttrValue),
      (findAttr attrs n).isSome →
      findAttr (setFirstAttrValue attrs n v) n = some ⟨n, v⟩ := by
  intro attrs n v
  induction attrs with
  | nil => intro h; simp [findAttr] at h
  | cons e rest ih =>
    intro h
    cases e with
    | attr b =>
      by_cases hb : b.name = n
      · simp [setFirstAttrValue, hb, findAttr]
      · simp only [setFirstAttrValue, hb, if_false, findAttr] at h ⊢
        exact ih h
    | spread s =>
      simp only [setFirstAttrValue, findAttr] at h ⊢
      exact ih h

theorem findAttr_setFirst_ne :
    ∀ (attrs : List AttrEntry) (m n : String) (v : AttrValue),
      m ≠ n →
      findAttr (setFirstAttrValue attrs m v) n = findAttr attrs n := by
  intro attrs m n v hmn
  induction attrs with
  | nil => rfl
  | cons e rest ih =>
    cases e with
    | attr b =>
      by_cases hb : b.name = m
      · have hbn : ¬(b.name = n) := by rw [hb]; exact hmn
        simp only [setFirstAttrValue, hb, if_pos, findAttr, hbn, if_false]
        simp [hmn]
      · simp only [setFirstAttrValue, hb, if_false, findAttr]
        by_cases hbn : b.name = n
        · simp [hbn]
        · simp only [hbn, if_false]
          exact ih
    | spread s =>
      simp only [setFirstAttrValue, findAttr]
      exact ih

theorem findAttr_removeAttr (attrs : List AttrEntry) (n : String) :
    findAttr (removeAttr attrs n) n = none := by
  induction attrs with
  | nil => rfl
  | cons e rest ih =>
    cases e with
    | attr b =>
      by_cases hb : b.name = n
      · simpa [removeAttr, hb] using ih
      · simpa [removeAttr, hb, findAttr] using ih
    | spread s =>
      simpa [removeAttr, findAttr] using ih

theorem deepMergeSx_findAttr_ne (attrs : List AttrEntry)
    (news : List (String × SxVal)) (n : String) (hn : n ≠ "sx")
    (h : (findAttr attrs n).isSome) :
    findAttr (Deep.mergeSxAttribute attrs news) n = findAttr attrs n := by
  unfold Deep.mergeSxAttribute
  cases hsx : findAttr attrs "sx" with
  | none =>
    dsimp only
    cases ha : findAttr attrs n with
    | none => rw [ha] at h; simp at h
    | some a => exact findAttr_append_some _ _ _ _ ha
  | some a =>
    dsimp only
    cases hv : a.value <;> dsimp only
    case sxObject props =>
      exact findAttr_setFirst_ne _ _ _ _ (Ne.symm hn)

end Helpers

section FlagLemmas

mutual
theorem uniWalk_flag
    (f : UniSt → JsxName → List AttrEntry → UniSt × JsxName × List AttrEntry)
    (hf : ∀ st n attrs, st.2 = true → ((f st n attrs).1).2 = true) :
    ∀ (st : UniSt) (x : Node), st.2 = true → ((uniWalk f st x).1).2 = true
  | st, .elem n attrs cs, h => by
    simp only [uniWalk]
    exact uniWalkList_flag f hf _ cs (hf st n attrs h)
  | st, .text s, h => h
  | st, .exprChild s, h => h
theorem uniWalkList_flag
    (f : UniSt → JsxName → List AttrEntry → UniSt × JsxName × List AttrEntry)
    (hf : ∀ st n attrs, st.2 = true → ((f st n attrs).1).2 = true) :
    ∀ (st : UniSt) (cs : List Node), st.2 = true →
      ((uniWalkList f st cs).1).2 = true
  | st, [], h => h
  | st, c :: cs, h => by
    simp only [uniWalkList]
    exact uniWalkList_flag f hf _ cs (uniWalk_flag f hf st c h)
end

mutual
theorem modalNode_flag :
    ∀ (st : UniSt) (x : Node), st.2 = true →
      ((Uni.modalNode st x).1).2 = true
  | st, .elem n attrs cs, h => by
    simp only [Uni.modalNode]
    by_cases hn : n = .ident "Modal"
    · rw [if_pos hn]
      exact modalList_flag _ cs rfl
    · rw [if_neg hn]
      exact modalList_flag st cs h
  | st, .text s, h => h
  | st, .exprChild s, h => h
theorem modalList_flag :
    ∀ (st : UniSt) (cs : List Node), st.2 = true →
      ((Uni.modalList st cs).1).2 = true
  | st, [], h => h
  | st, c :: cs, h => by
    simp only [Uni.modalList]
    exact modalList_flag _ cs (modalNode_flag st c h)
end

theorem hookButtons_flag :
    ∀ (st : UniSt) (n : JsxName) (attrs : List AttrEntry), st.2 = true →
      ((Uni.hookButtons st n attrs).1).2 = true := by
  intro st n attrs h
  unfold Uni.hookButtons
  by_cases hn : n = .ident "Button"
  · rw [if_pos hn]
  · rw [if_neg hn]; exact h

theorem hookAlerts_flag :
    ∀ (st : UniSt) (n : JsxName) (attrs : List AttrEntry), st.2 = true →
      ((Uni.hookAlerts st n attrs).1).2 = true := by
  intro st n attrs h
  unfold Uni.hookAlerts
  by_cases hn : n = .ident "Alert"
  · rw [if_pos hn]
  · rw [if_neg hn]; exact h

theorem hookRow_flag :
    ∀ (st : UniSt) (n : JsxName) (attrs : List AttrEntry), st.2 = true →
      ((Uni.hookRow st n attrs).1).2 = true := by
  intro st n attrs h
  unfold Uni.hookRow
  by_cases hn : n = .ident "Row"
  · rw [if_pos hn]
  · rw [if_neg hn]; exact h

theorem hookCol_flag :
    ∀ (st : UniSt) (n : JsxName) (attrs : List AttrEntry), st.2 = true →
      ((Uni.hookCol st n attrs).1).2 = true := by
  intro st n attrs h
  unfold Uni.hookCol
  by_cases hn : n = .ident "Col"
  · rw [if_pos hn]
  · rw [if_neg hn]; exact h

theorem hookContainer_flag :
    ∀ (st : UniSt) (n : JsxName) (attrs : List AttrEntry), st.2 = true →
      ((Uni.hookContainer st n attrs).1).2 = true := by
  intro st n attrs h
  unfold Uni.hookContainer
  by_cases hn : n = .ident "Container"
  · rw [if_pos hn]
    show (st.2 || _) = true
    rw [h]
    rfl
  · rw [if_neg hn]; exact h

theorem hookCards_flag :
    ∀ (st : UniSt) (n : JsxName) (attrs : List AttrEntry), st.2 = true →
      ((Uni.hookCards st n attrs).1).2 = true := by
  intro st n attrs h
  unfold Uni.hookCards
  split <;> first | rfl | exact h

theorem hookFormControls_flag :
    ∀ (st : UniSt) (n : JsxName) (attrs : List AttrEntry), st.2 = true →
      ((Uni.hookFormControls st n attrs).1).2 = true := by
  intro st n attrs h
  unfold Uni.hookFormControls
  by_cases hn : n = .member "Form" "Control"
  · rw [if_pos hn]
  · rw [if_neg hn]; exact h

theorem hookClassNames_flag :
    ∀ (st : UniSt) (n : JsxName) (attrs : List AttrEntry), st.2 = true →
      ((Uni.hookClassNames st n attrs).1).2 = true := by
  intro st n attrs h
  unfold Uni.hookClassNames
  show (st.2 || _) = true
  rw [h]
  rfl

theorem classNameUpdate_findAttr (attrs1 : List AttrEntry)
    (rem : List String) (h : (findAttr attrs1 "className").isSome) :
    (rem ≠ [] →
      findAttr (Deep.classNameUpdate attrs1 rem) "className" =
        some ⟨"className", .lit (joinSpace rem)⟩) ∧
    (rem = [] →
      findAttr (Deep.classNameUpdate attrs1 rem) "className" = none) := by
  constructor
  · intro hrem
    unfold Deep.classNameUpdate
    rw [if_neg (by simpa using hrem)]
    exact findAttr_setFirst_self _ _ _ h
  · intro hrem
    unfold Deep.classNameUpdate
    rw [if_pos (by simpa using hrem)]
    exact findAttr_removeAttr _ _

end FlagLemmas

/-- C1 counterexample: in bootstrap_mui_deep.js the `COMPONENT_MAP`
conversion pass matches elements by tag name alone, so a local component
named `Modal` in a file with no import at all — in particular no import of
the source library — is still rewritten to `Dialog`, refuting the claim
that a node not imported from the source library is never rewritten. -/
theorem c1_counterexample :
    (⟨[], [], [.elem (.ident "Modal") [] []]⟩ : Program).imports = [] ∧
    (Deep.run ⟨[], [], [.elem (.ident "Modal") [] []]⟩).1 = true ∧
    (Deep.run ⟨[], [], [.elem (.ident "Modal") [] []]⟩).2.body =
      [.elem (.ident "Dialog") [] []] :=
  ⟨rfl, by decide, by decide⟩

/-- C1 (amended): in the react-bootstrap-to-mui_manus.js transformer the
alias table built from the import section is consulted before any rule
lookup: an element whose tag name is not bound by any `react-bootstrap`
binding — even a name such as `Button` that is a rule key — keeps its tag
name and attribute list unchanged (children are still visited); the
bootstrap_mui_deep.js conversion pass, by contrast, matches by tag name
alone (see the counterexample). -/
theorem c1_theorem (imports : List ImportDecl) (attrs : List AttrEntry)
    (cs : List Node)
    (h : lookupKey (Manus.collectImports imports) "Button" = none) :
    Manus.manusNode (Manus.collectImports imports)
      (.elem (.ident "Button") attrs cs) =
    .elem (.ident "Button") attrs
      (Manus.manusList (Manus.collectImports imports) cs) := by
  simp only [Manus.manusNode, h]

/-- C1 witness: a file importing only `Box` from `@mui/material` has an
empty react-bootstrap alias table, and its local `Button` element is left
byte-identical. -/
theorem c1_witness :
    lookupKey (Manus.collectImports
      [⟨"@mui/material", [.named "Box" "Box"]⟩]) "Button" = none ∧
    Manus.manusNode
      (Manus.collectImports [⟨"@mui/material", [.named "Box" "Box"]⟩])
      (.elem (.ident "Button") [.attr ⟨"variant", .lit "primary"⟩] []) =
    .elem (.ident "Button") [.attr ⟨"variant", .lit "primary"⟩] [] := by
  refine ⟨by decide, ?_⟩
  rw [c1_theorem _ _ _ (by decide)]
  rfl

/-- C2 counterexample: bootstrap_mui_deep.js does not short-circuit on a
tree with no import of the source library — on a file with an empty import
section containing one `Spinner` element it reports `changed = true` and
returns a rewritten tree, refuting the claim that the engine returns the
unchanged sentinel with `changed = false` for every such tree. -/
theorem c2_counterexample :
    (⟨[], [], [.elem (.ident "Spinner") [] []]⟩ : Program).imports = [] ∧
    (Deep.run ⟨[], [], [.elem (.ident "Spinner") [] []]⟩).1 = true ∧
    (Deep.run ⟨[], [], [.elem (.ident "Spinner") [] []]⟩).2 ≠
      ⟨[], [], [.elem (.ident "Spinner") [] []]⟩ :=
  ⟨rfl, by decide, by decide⟩

theorem rbc_fold_no_bootstrap (l : List ImportDecl)
    (h : ∀ d ∈ l, d.source ≠ "react-bootstrap") (acc : List String) :
    (l.foldl
      (fun acc d =>
        if d.source = "react-bootstrap" then
          acc ++ d.specifiers.filterMap
            (fun sp => match sp with
              | .named imported _ => some imported
              | _ => none)
        else acc)
      acc) = acc := by
  induction l generalizing acc with
  | nil => rfl
  | cons d rest ih =>
    have hd := h d (by simp)
    simp only [List.foldl_cons, if_neg hd]
    exact ih (fun x hx => h x (by simp [hx])) acc

/-- C2 (amended): react-bootstrap-to-mui_claude.js does short-circuit —
for any program with no `react-bootstrap` import declaration, the
collected import table is empty and the transformer immediately returns
the unchanged input with `changed = false`, visiting no node and leaving
the import section untouched; bootstrap_mui_deep.js does not short-circuit
(see the counterexample). -/
theorem c2_theorem (p : Program)
    (h : ∀ d ∈ p.imports, d.source ≠ "react-bootstrap") :
    RbC.transform p = (false, p) := by
  have hb : RbC.bootstrapImportsOf p.imports = [] := by
    unfold RbC.bootstrapImportsOf
    rw [rbc_fold_no_bootstrap p.imports h []]
    rfl
  unfold RbC.transform
  rw [hb]
  rfl

/-- C2 witness: a file importing only React, with a `Button` element, is
returned unchanged with `changed = false`. -/
theorem c2_witness :
    RbC.transform ⟨[⟨"react", [.defaultSpec "React"]⟩], [],
      [.elem (.ident "Button") [] []]⟩ =
    (false, ⟨[⟨"react", [.defaultSpec "React"]⟩], [],
      [.elem (.ident "Button") [] []]⟩) :=
  c2_theorem _ (by decide)

/-- C3 counterexample: bootstrap_mui_claude.js is not idempotent.  On a
file with one `<Button variant="primary">` the first run produces
`variant="contained" color="primary"`; running the engine again on that
output reports `changed = true` (never `changed = false`) and drops the
`variant` attribute, because the target value `contained` is not a key of
`BUTTON_VARIANTS`, so the second output differs from the first. -/
theorem c3_counterexample :
    (Uni.transform ⟨[], [],
      [.elem (.ident "Button") [.attr ⟨"variant", .lit "primary"⟩] []]⟩).2 =
      ⟨[⟨"@mui/material/Button", [.defaultSpec "Button"]⟩], [],
       [.elem (.ident "Button")
         [.attr ⟨"variant", .lit "contained"⟩,
          .attr ⟨"color", .lit "primary"⟩] []]⟩ ∧
    (Uni.transform ⟨[⟨"@mui/material/Button", [.defaultSpec "Button"]⟩], [],
       [.elem (.ident "Button")
         [.attr ⟨"variant", .lit "contained"⟩,
          .attr ⟨"color", .lit "primary"⟩] []]⟩).1 = true ∧
    (Uni.transform ⟨[⟨"@mui/material/Button", [.defaultSpec "Button"]⟩], [],
       [.elem (.ident "Button")
         [.attr ⟨"variant", .lit "contained"⟩,
          .attr ⟨"color", .lit "primary"⟩] []]⟩).2 ≠
      ⟨[⟨"@mui/material/Button", [.defaultSpec "Button"]⟩], [],
       [.elem (.ident "Button")
         [.attr ⟨"variant", .lit "contained"⟩,
          .attr ⟨"color", .lit "primary"⟩] []]⟩ :=
  ⟨by decide, by decide, by decide⟩

/-- C3 (amended): bootstrap_mui_claude.js reports `changed = true` on
every input whatsoever (`removeBootstrapImports` sets the flag
unconditionally), so a second run never reports `changed = false`; and
`transformButtons` drops a `variant` attribute whose literal value is not
a `BUTTON_VARIANTS` key — in particular the target values the first run
emitted — so re-running the engine on its own output modifies already
converted Buttons instead of leaving them fixed. -/
theorem c3_theorem :
    (∀ p : Program, (Uni.transform p).1 = true) ∧
    (∀ v : String, Uni.lookupVariant Uni.BUTTON_VARIANTS v = none →
      Uni.transformButtonsAttrs [.attr ⟨"variant", .lit v⟩] = []) := by
  constructor
  · intro p
    exact
      uniWalkList_flag _ hookClassNames_flag _ _
        (uniWalkList_flag _ hookFormControls_flag _ _
          (uniWalkList_flag _ hookCards_flag _ _
            (uniWalkList_flag _ hookContainer_flag _ _
              (uniWalkList_flag _ hookCol_flag _ _
                (uniWalkList_flag _ hookRow_flag _ _
                  (modalList_flag _ _
                    (uniWalkList_flag _ hookAlerts_flag _ _
                      (uniWalkList_flag _ hookButtons_flag _ _ rfl))))))))
  · intro v h
    simp [Uni.transformButtonsAttrs, Uni.isLitFam, h]

/-- C3 witness: the converted value `contained` is not a
`BUTTON_VARIANTS` key, and a Button carrying only `variant="contained"`
loses the attribute on the next run. -/
theorem c3_witness :
    Uni.lookupVariant Uni.BUTTON_VARIANTS "contained" = none ∧
    Uni.transformButtonsAttrs [.attr ⟨"variant", .lit "contained"⟩] = [] :=
  ⟨by decide, c3_theorem.2 "contained" (by decide)⟩

/-- C4: style merging never overwrites a style key already present on the
pre-existing style attribute.  When the element's `sx` attribute holds an
object literal `P`, both `Deep.mergeSxAttribute` (bootstrap_mui_deep.js)
and `Gem2.mergeSxAttribute` (react-bootstrap-to-mui_gemini2.js) replace it
with `jsObjectFill P news`; every key of `P` keeps its explicit value
there, and a derived entry is looked up only for keys not yet set. -/
theorem c4_theorem (attrs : List AttrEntry) (P news : List (String × SxVal))
    (k : String) (h : findAttr attrs "sx" = some ⟨"sx", .sxObject P⟩) :
    findAttr (Deep.mergeSxAttribute attrs news) "sx" =
      some ⟨"sx", .sxObject (jsObjectFill P news)⟩ ∧
    findAttr (Gem2.mergeSxAttribute attrs news) "sx" =
      some ⟨"sx", .sxObject (jsObjectFill P news)⟩ ∧
    ((lookupKey P k).isSome →
      lookupKey (jsObjectFill P news) k = lookupKey P k) ∧
    (lookupKey P k = none →
      lookupKey (jsObjectFill P news) k = lookupKey news k) := by
  have hset : findAttr (setFirstAttrValue attrs "sx"
      (.sxObject (jsObjectFill P news))) "sx" =
      some ⟨"sx", .sxObject (jsObjectFill P news)⟩ :=
    findAttr_setFirst_self _ _ _ (by rw [h]; rfl)
  refine ⟨?_, ?_, jsObjectFill_lookup_some news P k,
    jsObjectFill_lookup_none news P k⟩
  · unfold Deep.mergeSxAttribute
    rw [h]
    exact hset
  · unfold Gem2.mergeSxAttribute
    rw [h]
    exact hset

/-- C4 witness: the spec's example — an existing `sx` of
`{color: 'red'}` merged with derived `{color: 'blue', margin: 2}` yields
`{color: 'red', margin: 2}`: explicit wins, derived fills gaps. -/
theorem c4_witness :
    Deep.mergeSxAttribute
        [.attr ⟨"sx", .sxObject [("color", SxVal.str "red")]⟩]
        [("color", SxVal.str "blue"), ("margin", SxVal.num 2)] =
      [.attr ⟨"sx", .sxObject
        [("color", SxVal.str "red"), ("margin", SxVal.num 2)]⟩] ∧
    lookupKey (jsObjectFill [("color", SxVal.str "red")]
        [("color", SxVal.str "blue"), ("margin", SxVal.num 2)]) "color" =
      some (SxVal.str "red") := by
  have h := c4_theorem
    [.attr ⟨"sx", .sxObject [("color", SxVal.str "red")]⟩]
    [("color", SxVal.str "red")]
    [("color", SxVal.str "blue"), ("margin", SxVal.num 2)]
    "color" (by decide)
  exact ⟨by decide, h.2.2.1 (by decide)⟩

/-- C5 counterexample: the Alert rule of bootstrap_mui_claude.js does not
pass an unmapped enum value through — `variant="custom"`, whose value is
not a key of `ALERT_SEVERITY`, is renamed to `severity` and replaced by
the default target value `info`, refuting the claim that such attributes
are preserved verbatim and never replaced with a default. -/
theorem c5_counterexample :
    lookupKey Uni.ALERT_SEVERITY "custom" = none ∧
    Uni.transformAlertsAttrs [.attr ⟨"variant", .lit "custom"⟩] =
      [.attr ⟨"severity", .lit "info"⟩] ∧
    ([.attr ⟨"severity", .lit "info"⟩] : List AttrEntry) ≠
      [.attr ⟨"variant", .lit "custom"⟩] :=
  ⟨by decide, by decide, by decide⟩

/-- C5 (amended): the propMap application of bootstrap_mui_deep.js does
pass unmapped values through — an attribute governed by a propMap rule
whose literal value is not a key of the rule's enumeration keeps its
original name and value verbatim; the Alert rule of
bootstrap_mui_claude.js instead substitutes the default `info` (see the
counterexample). -/
theorem c5_theorem (pm : List (String × List (String × String)))
    (m : List (String × String)) (a : JsxAttr) (v : String)
    (hv : a.value = .lit v) (hpm : lookupKey pm a.name = some m)
    (hm : lookupKey m v = none) :
    Deep.applyPropRule pm (.attr a) = .attr a := by
  unfold Deep.applyPropRule
  dsimp only
  rw [hpm]
  by_cases hve : v = ""
  · simp [hv, Deep.extractStr, hve]
  · simp [hv, Deep.extractStr, hve, hm]

/-- C5 witness: the deep codemod's `Button.propMap` leaves
`variant="custom"` untouched, name and value included. -/
theorem c5_witness :
    Deep.applyPropRule
      (((lookupKey Deep.COMPONENT_MAP "Button").map Deep.Cfg2.propMap).getD
        [])
      (.attr ⟨"variant", .lit "custom"⟩) =
    .attr ⟨"variant", .lit "custom"⟩ := by
  have hpm : lookupKey
      (((lookupKey Deep.COMPONENT_MAP "Button").map Deep.Cfg2.propMap).getD
        []) "variant" =
      some [("primary", "contained"), ("secondary", "outlined"),
        ("success", "contained"), ("danger", "contained"),
        ("warning", "contained"), ("info", "contained"),
        ("light", "outlined"), ("dark", "contained"), ("link", "text")] := by
    decide
  exact c5_theorem _ _ ⟨"variant", .lit "custom"⟩ "custom" rfl hpm (by decide)

theorem part1_fold_aux (specs : List ImportSpec)
    (acc : List ImportSpec × List Part1.Scheduled × List String) :
    (specs.foldl
      (fun acc sp =>
        match sp with
        | .named imported lname =>
          (match lookupKey Part1.REPLACEMENTS imported with
           | some repl =>
             (acc.1,
              acc.2.1 ++ [⟨repl.importSource, repl.newName, lname⟩],
              acc.2.2 ++ (if imported = "Card" then [lname] else []))
           | none => (acc.1 ++ [sp], acc.2.1, acc.2.2))
        | other => (acc.1 ++ [other], acc.2.1, acc.2.2))
      acc).1 =
    acc.1 ++ specs.filter
      (fun sp =>
        match sp with
        | .named imported _ =>
          (lookupKey Part1.REPLACEMENTS imported).isNone
        | _ => true) := by
  induction specs generalizing acc with
  | nil => simp
  | cons sp specs ih =>
    cases sp with
    | named imported lname =>
      cases hrep : lookupKey Part1.REPLACEMENTS imported with
      | some repl =>
        simp only [List.foldl_cons, hrep, List.filter_cons]
        rw [ih]
        simp [hrep]
      | none =>
        simp only [List.foldl_cons, hrep, List.filter_cons]
        rw [ih]
        simp [hrep]
    | defaultSpec lname =>
      simp only [List.foldl_cons, List.filter_cons]
      rw [ih]
      simp
    | nsSpec lname =>
      simp only [List.foldl_cons, List.filter_cons]
      rw [ih]
      simp

/-- C6 (amended): the conservative partial-migration stance holds for
src/unnamed/part_001 and react-bootstrap-to-mui_manus.js — part_001's
first pass keeps exactly the specifiers whose imported name has no
`REPLACEMENTS` entry (so unmigrated names still import from the source
library), and in the manus transformer every react-bootstrap specifier
whose name has no `componentMap` rule survives on a retained declaration;
react-bootstrap-to-mui_claude.js however removes the whole import (see
the counterexample). -/
theorem c6_theorem :
    (∀ specs : List ImportSpec,
      (Part1.processSpecifiers specs).1 =
        specs.filter
          (fun sp =>
            match sp with
            | .named imported _ =>
              (lookupKey Part1.REPLACEMENTS imported).isNone
            | _ => true)) ∧
    (∀ (table : List (String × String)) (d : ImportDecl)
        (sp : ImportSpec), sp ∈ d.specifiers →
      (∀ orig, lookupKey table (Deep.specLocal sp) = some orig →
        lookupKey Manus.componentMap orig = none) →
      ∃ d', Manus.rewriteBootstrapImport table d = some d' ∧
        sp ∈ d'.specifiers) := by
  constructor
  · intro specs
    unfold Part1.processSpecifiers
    exact part1_fold_aux specs ([], [], [])
  · intro table d sp hsp hcond
    have hkeep : (fun sp =>
        match lookupKey table (Deep.specLocal sp) with
        | some orig => (lookupKey Manus.componentMap orig).isNone
        | none => true) sp = true := by
      cases horig : lookupKey table (Deep.specLocal sp) with
      | some orig => simp [horig, hcond orig horig]
      | none => simp [horig]
    have hmem : sp ∈ Manus.filterSpecs table d.specifiers := by
      unfold Manus.filterSpecs
      exact List.mem_filter.mpr ⟨hsp, hkeep⟩
    refine ⟨⟨d.source, Manus.filterSpecs table d.specifiers⟩, ?_, hmem⟩
    unfold Manus.rewriteBootstrapImport
    rw [if_neg (by simp [List.isEmpty_iff]; exact List.ne_nil_of_mem hmem)]

/-- C6 counterexample: react-bootstrap-to-mui_claude.js removes the
entire `react-bootstrap` import declaration even though `Carousel` has no
rule in its `componentMap`, so the unmigrated name no longer imports from
the source library after the run. -/
theorem c6_counterexample :
    lookupKey RbC.componentMap "Carousel" = none ∧
    RbC.transform ⟨[⟨"react-bootstrap", [.named "Carousel" "Carousel"]⟩],
      [], [.elem (.ident "Carousel") [] []]⟩ =
    (true, ⟨[], [], [.elem (.ident "Carousel") [] []]⟩) :=
  ⟨by decide, by decide⟩

/-- C6 witness: `Carousel` has no replacement rule, so part_001 keeps its
specifier while dropping the mapped `Button`, and the manus transformer
keeps the whole declaration with the `Carousel` specifier on it. -/
theorem c6_witness :
    (Part1.processSpecifiers
      [.named "Button" "Button", .named "Carousel" "Carousel"]).1 =
      [.named "Carousel" "Carousel"] ∧
    (∃ d', Manus.rewriteBootstrapImport [("Carousel", "Carousel")]
        ⟨"react-bootstrap", [.named "Carousel" "Carousel"]⟩ = some d' ∧
      ImportSpec.named "Carousel" "Carousel" ∈ d'.specifiers) := by
  constructor
  · rw [c6_theorem.1]
    decide
  · exact c6_theorem.2 [("Carousel", "Carousel")]
      ⟨"react-bootstrap", [.named "Carousel" "Carousel"]⟩
      (.named "Carousel" "Carousel") (by decide)
      (by
        intro orig horig
        simp only [Deep.specLocal, lookupKey] at horig
        simp at horig
        rw [← horig]
        decide)

/-- C7: in bootstrap_mui_deep.js's `convertClassNameToSx`, every class
token not matched by any style rule is preserved verbatim and reattached
in original order (the rewritten `className` is exactly the unmatched
tokens joined by spaces, a sublist filter of the original token list), and
the `className` attribute is removed entirely exactly when zero tokens
remain. -/
theorem c7_theorem (attrs : List AttrEntry) (ca : JsxAttr) (s : String)
    (hfind : findAttr attrs "className" = some ca)
    (hval : ca.value = .lit s)
    (htoks : ((jsSplitSpace s).filter (fun c => jsTrim c ≠ "")) ≠ []) :
    ((((jsSplitSpace s).filter (fun c => jsTrim c ≠ "")).filter
        (fun c => (Deep.lookupSx c).isNone)) ≠ [] →
      findAttr (Deep.convertClassNameToSx attrs).1 "className" =
        some ⟨"className", .lit (joinSpace
          (((jsSplitSpace s).filter (fun c => jsTrim c ≠ "")).filter
            (fun c => (Deep.lookupSx c).isNone)))⟩) ∧
    ((((jsSplitSpace s).filter (fun c => jsTrim c ≠ "")).filter
        (fun c => (Deep.lookupSx c).isNone)) = [] →
      findAttr (Deep.convertClassNameToSx attrs).1 "className" = none) := by
  have hne : (((jsSplitSpace s).filter
      (fun c => jsTrim c ≠ "")).isEmpty) = false := by
    cases hcl : ((jsSplitSpace s).filter (fun c => jsTrim c ≠ "")) with
    | nil => exact absurd hcl htoks
    | cons a l => rfl
  unfold Deep.convertClassNameToSx
  rw [hfind]
  dsimp only
  rw [hval]
  dsimp only
  simp only [hne]
  rw [if_neg (by simp)]
  dsimp only
  refine classNameUpdate_findAttr _ _ ?_
  split
  · rw [hfind]; rfl
  · rw [deepMergeSx_findAttr_ne attrs _ "className" (by decide)
      (by rw [hfind]; rfl), hfind]
    rfl

/-- C7 witness: of `className="d-flex customx"` the matched token
`d-flex` is consumed and the unmatched token `customx` is reattached
verbatim. -/
theorem c7_witness :
    findAttr (Deep.convertClassNameToSx
      [.attr ⟨"className", .lit "d-flex customx"⟩]).1 "className" =
    some ⟨"className", .lit "customx"⟩ := by
  have h := (c7_theorem [.attr ⟨"className", .lit "d-flex customx"⟩]
    ⟨"className", .lit "d-flex customx"⟩ "d-flex customx" (by decide) rfl
    (by decide)).1 (by decide)
  rw [h]
  decide

/-- C8 counterexample: the prop-transform loop of the first
react-bootstrap-to-mui_gemini2.js transformer does evaluate function
rules on a non-literal value — a Button `size` given a computed
expression is replaced by the guessed literal `medium` instead of being
passed through unchanged. -/
theorem c8_counterexample :
    Gem1.transformAttrs Gem1.buttonPropMap
      [.attr ⟨"size", .exprOpaque "dynamicSize"⟩] =
    .ok ([.attr ⟨"size", .lit "medium"⟩], []) ∧
    (JsxAttr.mk "size" (.lit "medium")) ≠
      ⟨"size", .exprOpaque "dynamicSize"⟩ :=
  ⟨rfl, by decide⟩

/-- C8 (amended): bootstrap_mui_claude.js's `transformButtons` does skip
value-transforming rules on non-literal values — a `variant` or `size`
attribute whose value is not a plain literal is passed through verbatim
(the pass additionally unshifts a default `variant="contained"` since no
literal variant was seen); the first gemini transformer instead applies
its function rules to dynamic values (see the counterexample). -/
theorem c8_theorem (a : JsxAttr) (h : Uni.isLitFam a.value = false) :
    Uni.transformButtonsAttrs [.attr a] =
      [.attr ⟨"variant", .lit "contained"⟩, .attr a] := by
  simp [Uni.transformButtonsAttrs, h]

/-- C8 witness: a computed `variant` expression survives the Button pass
unchanged. -/
theorem c8_witness :
    Uni.isLitFam (AttrValue.exprOpaque "dynamicVariant") = false ∧
    Uni.transformButtonsAttrs
      [.attr ⟨"variant", .exprOpaque "dynamicVariant"⟩] =
    [.attr ⟨"variant", .lit "contained"⟩,
     .attr ⟨"variant", .exprOpaque "dynamicVariant"⟩] :=
  ⟨rfl, c8_theorem _ rfl⟩

/-- C9: bootstrap_mui_claude.js's className-to-sx pass is driven only by
the attribute itself: an element whose `className` value is not a plain
string literal is left entirely unchanged by the per-element body, and a
plain host element (here a `div`, resolving to no library import) with a
literal `className` is rewritten — its matched tokens become an `sx`
object and the emptied class attribute is removed. -/
theorem c9_theorem :
    (∀ (attrs : List AttrEntry) (a : JsxAttr),
      findAttr attrs "className" = some a →
      (∀ s : String, a.value ≠ .lit s) →
      Uni.classAttrsOne attrs = (attrs, false)) ∧
    (uniWalkList Uni.hookClassNames ([], false)
        [.elem (.ident "div") [.attr ⟨"className", .lit "d-flex"⟩] []] =
      (([], true),
       [.elem (.ident "div")
         [.attr ⟨"sx", .sxObject [("display", SxVal.str "flex")]⟩] []])) := by
  constructor
  · intro attrs a hfind hlit
    unfold Uni.classAttrsOne
    rw [hfind]
    dsimp only
    cases hv : a.value
    case lit s => exact absurd hv (hlit s)
    all_goals rfl
  · decide

/-- C9 witness: an element whose `className` is a computed expression is
left unchanged by the pass. -/
theorem c9_witness :
    Uni.classAttrsOne [.attr ⟨"className", .exprOpaque "styles"⟩] =
      ([.attr ⟨"className", .exprOpaque "styles"⟩], false) :=
  c9_theorem.1 _ ⟨"className", .exprOpaque "styles"⟩ (by decide)
    (fun s h => by cases h)

/-- C10: bootstrap_mui_claude.js's `transformModals` rewrites Modal
sub-components only among the direct children of the Modal being
converted: a direct `Modal.Body` child becomes `DialogContent`, while a
`Modal.Footer` sitting below an intermediate non-Modal element keeps its
original qualified name even though the surrounding Modal itself is
converted to `Dialog`. -/
theorem c10_theorem :
    (∀ (st : UniSt) (mattrs cattrs : List AttrEntry),
      (Uni.modalNode st (.elem (.ident "Modal") mattrs
          [.elem (.member "Modal" "Body") cattrs []])).2 =
        .elem (.ident "Dialog") (mattrs.map Uni.modalAttrRename)
          [.elem (.ident "DialogContent") cattrs []]) ∧
    (∀ (st : UniSt) (d : String) (mattrs dattrs cattrs : List AttrEntry),
      d ≠ "Modal" →
      (Uni.modalNode st (.elem (.ident "Modal") mattrs
          [.elem (.ident d) dattrs
            [.elem (.member "Modal" "Footer") cattrs []]])).2 =
        .elem (.ident "Dialog") (mattrs.map Uni.modalAttrRename)
          [.elem (.ident d) dattrs
            [.elem (.member "Modal" "Footer") cattrs []]]) := by
  constructor
  · intro st mattrs cattrs
    simp [Uni.modalNode, Uni.modalList, Uni.modalRenameChildren,
      Uni.modalChildTarget]
  · intro st d mattrs dattrs cattrs hd
    simp [Uni.modalNode, Uni.modalList, Uni.modalRenameChildren,
      Uni.modalChildTarget, hd]

/-- C10 witness: a `Modal.Footer` nested below an intermediate `div`
inside a converted Modal keeps its qualified name. -/
theorem c10_witness :
    (Uni.modalNode (([], false) : UniSt) (.elem (.ident "Modal") []
        [.elem (.ident "div") []
          [.elem (.member "Modal" "Footer") [] []]])).2 =
      .elem (.ident "Dialog") []
        [.elem (.ident "div") []
          [.elem (.member "Modal" "Footer") [] []]] := by
  have h := c10_theorem.2 (([], false) : UniSt) "div" [] [] [] (by decide)
  simpa using h
